import Mathlib

/-!
Verification of the Tech API client (`custom_components/tech/tech.py`).

The Python client is embedded shallowly:
* JSON payloads become the inductive `Json`; Python `dict.get`, `in` and
  truthiness become `Json.getD`, `Json.hasKey`, `Json.truthy` (payload records
  are taken to be JSON objects or null, as the API schema guarantees; the
  embedding fixes that typed domain).
* The mutable client object becomes the record `TechState`, threaded
  explicitly; every API method becomes a function
  `Server → TechState → ... → TechState × List Request × Except PyErr α`
  returning the new state, the network requests issued (in order), and either
  the Python return value or the exception raised.
* The server is an oracle `Server := Request → Except TechFail Json`: a
  `.error` models any request on which `_make_request` raises `TechError`
  (non-200 status, transport error, JSON decode failure); `.ok` models a 200
  response with its decoded JSON body.
* Python `float` temperatures are modelled as exact rationals; `int(x)`
  becomes `pyInt` (truncation toward zero).
* The in-place merge loops (`zones[zone["zone"]["id"]] = zone`) become
  `zonePairs`/`tilePairs` (the id/record pairs successfully extracted before
  the first `KeyError`, plus that error if any) followed by the pure fold
  `mergePairs`; this is exactly the loop's effect, since on a `KeyError` the
  assignments already performed are retained and the exception propagates.
* `asyncio` concurrency for the `update_lock` guard is modelled separately as
  a small-step transition system (`CStep`) whose atomic steps are the await
  points of `module_data`.
-/

set_option maxHeartbeats 1000000

namespace TechVerify

/-- JSON values as exchanged with the Tech API. -/
inductive Json where
  | null : Json
  | bool (b : Bool) : Json
  | int (n : Int) : Json
  | str (s : String) : Json
  | arr (elems : List Json) : Json
  | obj (fields : List (String × Json)) : Json

mutual

/-- Decidable equality of JSON values (Python `==` on decoded payloads). -/
def Json.decEq : (a b : Json) → Decidable (a = b)
  | .null, .null => .isTrue rfl
  | .bool a, .bool b =>
    if h : a = b then .isTrue (h ▸ rfl) else .isFalse (fun hh => h (Json.bool.inj hh))
  | .int a, .int b =>
    if h : a = b then .isTrue (h ▸ rfl) else .isFalse (fun hh => h (Json.int.inj hh))
  | .str a, .str b =>
    if h : a = b then .isTrue (h ▸ rfl) else .isFalse (fun hh => h (Json.str.inj hh))
  | .arr xs, .arr ys =>
    match Json.decEqList xs ys with
    | .isTrue h => .isTrue (h ▸ rfl)
    | .isFalse h => .isFalse (fun hh => h (Json.arr.inj hh))
  | .obj fs, .obj gs =>
    match Json.decEqObj fs gs with
    | .isTrue h => .isTrue (h ▸ rfl)
    | .isFalse h => .isFalse (fun hh => h (Json.obj.inj hh))
  | .null, .bool _ => .isFalse nofun
  | .null, .int _ => .isFalse nofun
  | .null, .str _ => .isFalse nofun
  | .null, .arr _ => .isFalse nofun
  | .null, .obj _ => .isFalse nofun
  | .bool _, .null => .isFalse nofun
  | .bool _, .int _ => .isFalse nofun
  | .bool _, .str _ => .isFalse nofun
  | .bool _, .arr _ => .isFalse nofun
  | .bool _, .obj _ => .isFalse nofun
  | .int _, .null => .isFalse nofun
  | .int _, .bool _ => .isFalse nofun
  | .int _, .str _ => .isFalse nofun
  | .int _, .arr _ => .isFalse nofun
  | .int _, .obj _ => .isFalse nofun
  | .str _, .null => .isFalse nofun
  | .str _, .bool _ => .isFalse nofun
  | .str _, .int _ => .isFalse nofun
  | .str _, .arr _ => .isFalse nofun
  | .str _, .obj _ => .isFalse nofun
  | .arr _, .null => .isFalse nofun
  | .arr _, .bool _ => .isFalse nofun
  | .arr _, .int _ => .isFalse nofun
  | .arr _, .str _ => .isFalse nofun
  | .arr _, .obj _ => .isFalse nofun
  | .obj _, .null => .isFalse nofun
  | .obj _, .bool _ => .isFalse nofun
  | .obj _, .int _ => .isFalse nofun
  | .obj _, .str _ => .isFalse nofun
  | .obj _, .arr _ => .isFalse nofun

/-- Decidable equality of JSON arrays. -/
def Json.decEqList : (xs ys : List Json) → Decidable (xs = ys)
  | [], [] => .isTrue rfl
  | [], _ :: _ => .isFalse nofun
  | _ :: _, [] => .isFalse nofun
  | x :: xs, y :: ys =>
    match Json.decEq x y with
    | .isFalse h => .isFalse (fun hh => h (List.head_eq_of_cons_eq hh))
    | .isTrue h1 =>
      match Json.decEqList xs ys with
      | .isTrue h2 => .isTrue (by rw [h1, h2])
      | .isFalse h => .isFalse (fun hh => h (List.tail_eq_of_cons_eq hh))

/-- Decidable equality of JSON object field lists. -/
def Json.decEqObj : (fs gs : List (String × Json)) → Decidable (fs = gs)
  | [], [] => .isTrue rfl
  | [], _ :: _ => .isFalse nofun
  | _ :: _, [] => .isFalse nofun
  | (k, v) :: fs, (k', v') :: gs =>
    if hk : k = k' then
      match Json.decEq v v' with
      | .isFalse h =>
        .isFalse (fun hh => h (congrArg Prod.snd (List.head_eq_of_cons_eq hh)))
      | .isTrue h1 =>
        match Json.decEqObj fs gs with
        | .isTrue h2 => .isTrue (by rw [hk, h1, h2])
        | .isFalse h => .isFalse (fun hh => h (List.tail_eq_of_cons_eq hh))
    else
      .isFalse (fun hh => hk (congrArg Prod.fst (List.head_eq_of_cons_eq hh)))

end

instance : DecidableEq Json := Json.decEq

/-- Key lookup in an association list of JSON object fields (first match,
mirroring Python dict lookup; dict keys are unique). -/
def jfind : List (String × Json) → String → Option Json
  | [], _ => none
  | (k, v) :: rest, key => if k = key then some v else jfind rest key

/-- `d[key]` / `d.get(key)` on a JSON object: `none` when the key is absent
(or the value is not an object). -/
def Json.find : Json → String → Option Json
  | .obj fields, key => jfind fields key
  | _, _ => none

/-- Python `d.get(key, default)`. -/
def Json.getD (j : Json) (key : String) (d : Json) : Json :=
  (j.find key).getD d

/-- Python `key in d`. -/
def Json.hasKey (j : Json) (key : String) : Bool :=
  (j.find key).isSome

/-- Python truthiness of a JSON value. -/
def Json.truthy : Json → Bool
  | .null => false
  | .bool b => b
  | .int n => n != 0
  | .str s => s != ""
  | .arr xs => !xs.isEmpty
  | .obj fs => !fs.isEmpty

/-- Python `str()` of a JSON scalar (containers elided; the values so
formatted — ids, tokens — are scalars in the API schema). -/
def pyStr : Json → String
  | .null => "None"
  | .bool b => if b then "True" else "False"
  | .int n => toString n
  | .str s => s
  | .arr _ => "[...]"
  | .obj _ => "\x7b...\x7d"

/-- Python `int()` on an exact rational: truncation toward zero. -/
def pyInt (q : ℚ) : Int := q.num.tdiv (q.den : Int)

/-- The per-module cache maps `zones` / `tiles`: Python dicts keyed by the
id value taken from the payload. Insertion order is kept, as in Python. -/
abbrev ZMap := List (Json × Json)

/-- Dict lookup in a cache map. -/
def zlookup (k : Json) : ZMap → Option Json
  | [] => none
  | (k', v) :: rest => if k' = k then some v else zlookup k rest

/-- Dict assignment `m[k] = v`: overwrite in place, or append a new entry. -/
def zinsert (k v : Json) : ZMap → ZMap
  | [] => [(k, v)]
  | (k', v') :: rest => if k' = k then (k, v) :: rest else (k', v') :: zinsert k v rest

/-- One entry of `Tech.modules`: `{"last_update": ..., "zones": ..., "tiles": ...}`. -/
structure ModuleRec where
  last_update : Option Nat
  zones : ZMap
  tiles : ZMap
  deriving DecidableEq

def emptyModuleRec : ModuleRec := ⟨none, [], []⟩

/-- `Tech.modules`: dict keyed by module udid. -/
abbrev MMap := List (String × ModuleRec)

def mlookup (k : String) : MMap → Option ModuleRec
  | [] => none
  | (k', v) :: rest => if k' = k then some v else mlookup k rest

def minsert (k : String) (v : ModuleRec) : MMap → MMap
  | [] => [(k, v)]
  | (k', v') :: rest => if k' = k then (k, v) :: rest else (k', v') :: minsert k v rest

/-- The mutable fields of a `Tech` client instance.  `authenticated` stores
the truthiness of the Python attribute (which is only ever truth-tested);
`token` stores the raw JSON value assigned by `authenticate`;
`authHeader` is `headers["Authorization"]`. -/
structure TechState where
  user_id : Option String
  token : Option Json
  authenticated : Bool
  authHeader : Option String
  modules : MMap
  deriving DecidableEq

/-- One HTTP request issued by `_make_request`. -/
structure Request where
  method : String
  path : String
  body : Option Json
  deriving DecidableEq

/-- A `TechError` raised inside `_make_request`: non-200 status, transport
failure, or JSON decode failure (all carry a status code and message). -/
structure TechFail where
  status : Int
  msg : String
  deriving DecidableEq

/-- The remote server as a deterministic oracle. -/
abbrev Server := Request → Except TechFail Json

/-- The exceptions the client can raise: `TechError` (the generic kind, the
spec's GenericAPIError), its subclass `TechLoginError` (the spec's
AuthenticationError — `coordinator.py` distinguishes exactly these two), and
Python `KeyError`. -/
inductive PyErr where
  | techError (status : Int) (msg : String)
  | techLoginError (status : Int) (msg : String)
  | keyError (msg : String)
  deriving DecidableEq

/-- `true` exactly on a raised `TechLoginError` (the AuthenticationError kind). -/
def isLoginErr {α : Type} : Except PyErr α → Bool
  | .error (.techLoginError _ _) => true
  | _ => false

instance {ε α : Type} [DecidableEq ε] [DecidableEq α] : DecidableEq (Except ε α) :=
  fun a b =>
    match a, b with
    | .error e, .error e' =>
      if h : e = e' then .isTrue (h ▸ rfl)
      else .isFalse (fun hh => h (Except.error.inj hh))
    | .ok v, .ok v' =>
      if h : v = v' then .isTrue (h ▸ rfl)
      else .isFalse (fun hh => h (Except.ok.inj hh))
    | .error _, .ok _ => .isFalse nofun
    | .ok _, .error _ => .isFalse nofun

/-- `f"{self.user_id}"` (str of an optional value). -/
def userStr (st : TechState) : String :=
  match st.user_id with
  | some u => u
  | none => "None"

/-- `self.modules[m]` after it is known to exist (empty record otherwise;
only reached after `_initialize_module_data`). -/
def modulesGet (st : TechState) (m : String) : ModuleRec :=
  (mlookup m st.modules).getD emptyModuleRec

def zonesOf (st : TechState) (m : String) : ZMap := (modulesGet st m).zones

def tilesOf (st : TechState) (m : String) : ZMap := (modulesGet st m).tiles

/-- `Tech._initialize_module_data`. -/
def init_module_data (st : TechState) (m : String) : TechState :=
  if (mlookup m st.modules).isSome then st
  else { st with modules := minsert m emptyModuleRec st.modules }

/-- Update a module record in place (no-op when absent; the call sites run
only after `init_module_data`, mirroring `self.modules[m][...] = ...`). -/
def setModule (st : TechState) (m : String) (f : ModuleRec → ModuleRec) : TechState :=
  match mlookup m st.modules with
  | some r => { st with modules := minsert m (f r) st.modules }
  | none => st

/-- The per-record validity test of `Tech._filter_zones`. -/
def zoneValid (zone : Json) : Bool :=
  zone != Json.null && zone.hasKey "zone" &&
    zone.getD "zone" Json.null != Json.null &&
    (zone.getD "zone" Json.null).hasKey "visibility" &&
    (zone.getD "zone" Json.null).getD "zoneState" Json.null != Json.str "zoneUnregistered"

/-- `Tech._filter_zones`. -/
def filter_zones (zones : List Json) : List Json := zones.filter zoneValid

/-- The per-record test of `Tech._filter_tiles`: `tile.get("visibility", False)`. -/
def tileVisible (tile : Json) : Bool :=
  (tile.getD "visibility" (Json.bool false)).truthy

/-- `Tech._filter_tiles`. -/
def filter_tiles (tiles : List Json) : List Json := tiles.filter tileVisible

/-- Elements of a JSON array (the merge loops iterate lists). -/
def jarr : Json → List Json
  | .arr xs => xs
  | _ => []

/-- `zone["zone"]["id"]` as an optional value. -/
def zoneIdOf (zone : Json) : Option Json :=
  (zone.find "zone").bind (fun s => Json.find s "id")

/-- `tile["id"]` as an optional value. -/
def tileIdOf (tile : Json) : Option Json := tile.find "id"

/-- The id/record pairs the zone merge loop assigns, in order, stopping at
the first record on which `zone["zone"]["id"]` raises `KeyError`; the second
component is that error, if any. -/
def zonePairs : List Json → List (Json × Json) × Option PyErr
  | [] => ([], none)
  | z :: rest =>
    match z.find "zone" with
    | none => ([], some (.keyError "zone"))
    | some sub =>
      match sub.find "id" with
      | none => ([], some (.keyError "id"))
      | some zid =>
        let (ps, e) := zonePairs rest
        ((zid, z) :: ps, e)

/-- The id/record pairs the tile merge loop assigns (see `zonePairs`). -/
def tilePairs : List Json → List (Json × Json) × Option PyErr
  | [] => ([], none)
  | t :: rest =>
    match t.find "id" with
    | none => ([], some (.keyError "id"))
    | some tid =>
      let (ps, e) := tilePairs rest
      ((tid, t) :: ps, e)

/-- Replay a list of dict assignments over a cache map. -/
def mergePairs (zm : ZMap) : List (Json × Json) → ZMap
  | [] => zm
  | (k, v) :: rest => mergePairs (zinsert k v zm) rest

/-- `Tech._make_request`: issues the HTTP request and either returns the
decoded body or raises `TechError` (as the oracle dictates). -/
def make_request (srv : Server) (method path : String) (data : Option Json) :
    List Request × Except PyErr Json :=
  let req : Request := ⟨method, path, data⟩
  match srv req with
  | .error f => ([req], .error (.techError f.status f.msg))
  | .ok j => ([req], .ok j)

/-- The `handle_api_errors` decorator's pre-check: an unauthenticated call
raises `TechError(401, "Not authenticated")` before doing anything else.
(The decorator's `aiohttp.ClientError`/`TimeoutError` translation is folded
into the oracle's `TechFail`.) -/
def guarded {α : Type} (st : TechState)
    (body : TechState × List Request × Except PyErr α) :
    TechState × List Request × Except PyErr α :=
  if st.authenticated then body
  else (st, [], .error (.techError 401 "Not authenticated"))

/-- `Tech.get`. -/
def get (srv : Server) (st : TechState) (path : String) :
    TechState × List Request × Except PyErr Json :=
  guarded st
    (let (reqs, r) := make_request srv "GET" path none
     (st, reqs, r))

/-- `Tech.post`. -/
def post (srv : Server) (st : TechState) (path : String) (data : Json) :
    TechState × List Request × Except PyErr Json :=
  guarded st
    (let (reqs, r) := make_request srv "POST" path (some data)
     (st, reqs, r))

/-- `Tech.list_modules`. -/
def list_modules (srv : Server) (st : TechState) :
    TechState × List Request × Except PyErr Json :=
  guarded st (get srv st ("users/" ++ userStr st ++ "/modules"))

/-- `Tech.get_module_data`. -/
def get_module_data (srv : Server) (st : TechState) (module_udid : String) :
    TechState × List Request × Except PyErr Json :=
  guarded st (get srv st ("users/" ++ userStr st ++ "/modules/" ++ module_udid))

/-- `Tech.get_translations`.  `TECH_SUPPORTED_LANGUAGES` lives in
`const.py`, which is not part of the sources; the supported set is passed as
a parameter (the behavior verified here does not depend on its contents). -/
def get_translations (supported : List String) (srv : Server) (st : TechState)
    (language : String) : TechState × List Request × Except PyErr Json :=
  guarded st
    (let lang := if language ∈ supported then language else "en"
     get srv st ("i18n/" ++ lang))

/-- The request `get_module_data` issues, and the oracle's answer to it. -/
def moduleResp (srv : Server) (st : TechState) (module_udid : String) :
    Except TechFail Json :=
  srv ⟨"GET", "users/" ++ userStr st ++ "/modules/" ++ module_udid, none⟩

/-- `result.get("zones", {}).get("elements", [])`. -/
def zonesField (result : Json) : Json :=
  (result.getD "zones" (Json.obj [])).getD "elements" (Json.arr [])

/-- `result.get("tiles", [])`. -/
def tilesField (result : Json) : Json := result.getD "tiles" (Json.arr [])

/-- `Tech.get_module_zones`. -/
def get_module_zones (srv : Server) (st : TechState) (module_udid : String) :
    TechState × List Request × Except PyErr ZMap :=
  guarded st
    (let st1 := init_module_data st module_udid
     match get_module_data srv st1 module_udid with
     | (st2, reqs, .error e) => (st2, reqs, .error e)
     | (st2, reqs, .ok result) =>
       let zonesJ := zonesField result
       if !zonesJ.truthy then (st2, reqs, .ok (zonesOf st2 module_udid))
       else
         let (ps, e) := zonePairs (filter_zones (jarr zonesJ))
         let st3 := setModule st2 module_udid
           (fun r => { r with zones := mergePairs r.zones ps })
         match e with
         | some err => (st3, reqs, .error err)
         | none => (st3, reqs, .ok (zonesOf st3 module_udid)))

/-- `Tech.get_module_tiles`. -/
def get_module_tiles (srv : Server) (st : TechState) (module_udid : String) :
    TechState × List Request × Except PyErr ZMap :=
  guarded st
    (let st1 := init_module_data st module_udid
     match get_module_data srv st1 module_udid with
     | (st2, reqs, .error e) => (st2, reqs, .error e)
     | (st2, reqs, .ok result) =>
       let tilesJ := tilesField result
       if !tilesJ.truthy then (st2, reqs, .ok (tilesOf st2 module_udid))
       else
         let (ps, e) := tilePairs (filter_tiles (jarr tilesJ))
         let st3 := setModule st2 module_udid
           (fun r => { r with tiles := mergePairs r.tiles ps })
         match e with
         | some err => (st3, reqs, .error err)
         | none => (st3, reqs, .ok (tilesOf st3 module_udid)))

/-- `Tech.module_data` (the guarded full refresh).  `now` is `time.time()`;
the sequential semantics of the body is given here, the `update_lock`
serialization is modelled by `CStep` below. -/
def module_data (srv : Server) (now : Nat) (st : TechState) (module_udid : String) :
    TechState × List Request × Except PyErr ModuleRec :=
  guarded st
    (let st1 := init_module_data st module_udid
     match get_module_data srv st1 module_udid with
     | (st2, reqs, .error e) => (st2, reqs, .error e)
     | (st2, reqs, .ok result) =>
       let zonesJ := zonesField result
       let (ps, ze) :=
         if zonesJ.truthy then zonePairs (filter_zones (jarr zonesJ)) else ([], none)
       let st3 := setModule st2 module_udid
         (fun r => { r with zones := mergePairs r.zones ps })
       match ze with
       | some err => (st3, reqs, .error err)
       | none =>
         let tilesJ := tilesField result
         let (tps, te) :=
           if tilesJ.truthy then tilePairs (filter_tiles (jarr tilesJ)) else ([], none)
         let st4 := setModule st3 module_udid
           (fun r => { r with tiles := mergePairs r.tiles tps })
         match te with
         | some err => (st4, reqs, .error err)
         | none =>
           let st5 := setModule st4 module_udid
             (fun r => { r with last_update := some now })
           (st5, reqs, .ok (modulesGet st5 module_udid)))

/-- `Tech.get_zone` (no decorator of its own; the inner refresh is guarded). -/
def get_zone (srv : Server) (st : TechState) (module_udid : String) (zone_id : Json) :
    TechState × List Request × Except PyErr Json :=
  match get_module_zones srv st module_udid with
  | (st1, reqs, .error e) => (st1, reqs, .error e)
  | (st1, reqs, .ok _) =>
    match zlookup zone_id (zonesOf st1 module_udid) with
    | none =>
      (st1, reqs, .error (.keyError
        ("Zone " ++ pyStr zone_id ++ " not found in module " ++ module_udid)))
    | some z => (st1, reqs, .ok z)

/-- `Tech.get_tile` (no decorator of its own; the inner refresh is guarded). -/
def get_tile (srv : Server) (st : TechState) (module_udid : String) (tile_id : Json) :
    TechState × List Request × Except PyErr Json :=
  match get_module_tiles srv st module_udid with
  | (st1, reqs, .error e) => (st1, reqs, .error e)
  | (st1, reqs, .ok _) =>
    match zlookup tile_id (tilesOf st1 module_udid) with
    | none =>
      (st1, reqs, .error (.keyError
        ("Tile " ++ pyStr tile_id ++ " not found in module " ++ module_udid)))
    | some t => (st1, reqs, .ok t)

/-- `Tech.set_const_temp`. -/
def set_const_temp (srv : Server) (st : TechState) (module_udid : String)
    (zone_id : Json) (target_temp : ℚ) :
    TechState × List Request × Except PyErr Json :=
  guarded st
    (match get_module_zones srv st module_udid with
     | (st1, reqs, .error e) => (st1, reqs, .error e)
     | (st1, reqs, .ok _) =>
       match zlookup zone_id (zonesOf st1 module_udid) with
       | none =>
         (st1, reqs, .error (.keyError
           ("Zone " ++ pyStr zone_id ++ " not found in module " ++ module_udid)))
       | some zone_data =>
         match zone_data.find "mode" with
         | none => (st1, reqs, .error (.keyError "mode"))
         | some mode =>
           match mode.find "id" with
           | none => (st1, reqs, .error (.keyError "id"))
           | some mode_id =>
             let data := Json.obj [("mode", Json.obj
               [("id", mode_id),
                ("parentId", zone_id),
                ("mode", Json.str "constantTemp"),
                ("constTempTime", Json.int 60),
                ("setTemperature", Json.int (pyInt (target_temp * 10))),
                ("scheduleIndex", Json.int 0)])]
             match post srv st1
                 ("users/" ++ userStr st1 ++ "/modules/" ++ module_udid ++ "/zones")
                 data with
             | (st2, reqs2, r) => (st2, reqs ++ reqs2, r))

/-- `Tech.set_zone` (the source's parameter `on` is renamed `onFlag`;
`on` is taken in Lean). -/
def set_zone (srv : Server) (st : TechState) (module_udid : String)
    (zone_id : Json) (onFlag : Bool) : TechState × List Request × Except PyErr Json :=
  guarded st
    (let zone_state := if onFlag then "zoneOn" else "zoneOff"
     let data := Json.obj [("zone", Json.obj
       [("id", zone_id), ("zoneState", Json.str zone_state)])]
     post srv st ("users/" ++ userStr st ++ "/modules/" ++ module_udid ++ "/zones") data)

/-- The request body `authenticate` posts. -/
def authBody (username password : String) : Json :=
  Json.obj [("username", Json.str username), ("password", Json.str password)]

/-- The request `authenticate` issues. -/
def authReq (username password : String) : Request :=
  ⟨"POST", "authentication", some (authBody username password)⟩

/-- `Tech.authenticate` (not decorated: exempt from the pre-check).
A `TechError` out of `_make_request` is re-raised as
`TechLoginError(401, "Authentication failed")`, whose stored message is
`"Login failed: Authentication failed"`. -/
def authenticate (srv : Server) (st : TechState) (username password : String) :
    TechState × List Request × Except PyErr Bool :=
  let (reqs, r) := make_request srv "POST" "authentication" (some (authBody username password))
  match r with
  | .error _ => (st, reqs, .error (.techLoginError 401 "Login failed: Authentication failed"))
  | .ok result =>
    let authVal := result.getD "authenticated" (Json.bool false)
    let st1 := { st with authenticated := authVal.truthy }
    if authVal.truthy then
      match result.find "user_id" with
      | none => (st1, reqs, .error (.keyError "user_id"))
      | some uid =>
        let st2 := { st1 with user_id := some (pyStr uid) }
        match result.find "token" with
        | none => (st2, reqs, .error (.keyError "token"))
        | some tok =>
          let st3 := { st2 with token := some tok,
                                authHeader := some ("Bearer " ++ pyStr tok) }
          (st3, reqs, .ok true)
    else (st1, reqs, .ok false)

/-- `Tech.is_authenticated`. -/
def is_authenticated (st : TechState) : Bool :=
  st.authenticated && st.token.isSome

/-- `Tech.get_module_last_update`:
`self.modules.get(module_udid, {}).get("last_update")`. -/
def get_module_last_update (st : TechState) (module_udid : String) : Option Nat :=
  (mlookup module_udid st.modules).bind (fun r => r.last_update)

/-- `Tech.clear_module_cache` (`if module_udid:` is a truthiness test, so an
empty-string udid clears everything). -/
def clear_module_cache (st : TechState) (module_udid : Option String) : TechState :=
  match module_udid with
  | some m =>
    if m ≠ "" then
      if (mlookup m st.modules).isSome then
        { st with modules := minsert m emptyModuleRec st.modules }
      else st
    else { st with modules := [] }
  | none => { st with modules := [] }

/-! ### Concurrency model of the guarded refresh

`module_data` runs under `self.update_lock`, a single `asyncio.Lock` owned by
the whole client instance.  Each task below is one `module_data(mid i)`
invocation; its phases are separated by the coroutine's await points:
the decorator pre-check (synchronous), `update_lock.__aenter__` (may
suspend), the network fetch `get_module_data` (suspends while the request is
in flight), the synchronous merge + timestamp, and the lock release. -/

/-- Phase of one `module_data` invocation. -/
inductive MPhase where
  | start    -- invoked, pre-check not yet run
  | aborted  -- pre-check raised `TechError(401)`; no fetch will happen
  | waiting  -- awaiting `update_lock`
  | fetching -- holds the lock; module-payload request in flight
  | merging  -- holds the lock; response received, merging and stamping
  | done     -- lock released, call returned
  deriving DecidableEq

/-- Two concurrent `module_data` calls on one client: per-task phase and
target module id, the session flag, and the owner of `update_lock`. -/
structure CSys where
  auth : Bool
  mid : Fin 2 → String
  phase : Fin 2 → MPhase
  owner : Option (Fin 2)

def updPhase (f : Fin 2 → MPhase) (i : Fin 2) (p : MPhase) : Fin 2 → MPhase :=
  fun j => if j = i then p else f j

/-- Interleaving semantics: each constructor is one atomic step of one task.
The lock is acquired only when free and released by its holder, exactly the
semantics of `asyncio.Lock` under cooperative scheduling. -/
inductive CStep : CSys → CSys → Prop where
  | precheckFail (s : CSys) (i : Fin 2) :
      s.phase i = .start → s.auth = false →
      CStep s { s with phase := updPhase s.phase i .aborted }
  | precheckOk (s : CSys) (i : Fin 2) :
      s.phase i = .start → s.auth = true →
      CStep s { s with phase := updPhase s.phase i .waiting }
  | acquire (s : CSys) (i : Fin 2) :
      s.phase i = .waiting → s.owner = none →
      CStep s { s with phase := updPhase s.phase i .fetching, owner := some i }
  | fetchDone (s : CSys) (i : Fin 2) :
      s.phase i = .fetching →
      CStep s { s with phase := updPhase s.phase i .merging }
  | release (s : CSys) (i : Fin 2) :
      s.phase i = .merging →
      CStep s { s with phase := updPhase s.phase i .done, owner := none }

/-- Both tasks freshly invoked, lock free. -/
def CInit (auth : Bool) (mid : Fin 2 → String) : CSys :=
  ⟨auth, mid, fun _ => .start, none⟩

/-- States reachable by interleaving the two invocations. -/
inductive CReach (auth : Bool) (mid : Fin 2 → String) : CSys → Prop where
  | init : CReach auth mid (CInit auth mid)
  | step {s t : CSys} : CReach auth mid s → CStep s t → CReach auth mid t

/-- Task `i` holds `update_lock`. -/
def holdsLock (s : CSys) (i : Fin 2) : Prop :=
  s.phase i = .fetching ∨ s.phase i = .merging

/-- Lock-ownership invariant. -/
def CInv (s : CSys) : Prop := ∀ i, holdsLock s i → s.owner = some i

/-! ### Map algebra -/

/-- Left-biased choice on optional values (dict-merge precedence). -/
def oOr (a b : Option Json) : Option Json :=
  match a with
  | some v => some v
  | none => b

theorem oOr_none (b : Option Json) : oOr none b = b := rfl

theorem oOr_absorb (a b : Option Json) : oOr a (oOr a b) = oOr a b := by
  cases a <;> rfl

theorem zlookup_zinsert (i k : Json) (v : Json) (zm : ZMap) :
    zlookup i (zinsert k v zm) = if k = i then some v else zlookup i zm := by
  induction zm with
  | nil => simp [zinsert, zlookup]
  | cons hd tl ih =>
    obtain ⟨k', v'⟩ := hd
    simp only [zinsert]
    by_cases hk : k' = k
    · subst hk
      simp only [if_pos rfl, zlookup]
      by_cases hi : k' = i <;> simp [hi]
    · simp only [if_neg hk, zlookup]
      by_cases hi : k' = i
      · subst hi
        have hne : ¬(k = k') := fun h => hk h.symm
        simp [hne]
      · simp [hi, ih]

theorem zlookup_append (i : Json) (xs ys : ZMap) :
    zlookup i (xs ++ ys) = oOr (zlookup i xs) (zlookup i ys) := by
  induction xs with
  | nil => simp [zlookup, oOr]
  | cons hd tl ih =>
    obtain ⟨k, v⟩ := hd
    by_cases hk : k = i <;> simp [zlookup, hk, ih, oOr]

theorem zlookup_mergePairs (i : Json) (zm : ZMap) (ps : List (Json × Json)) :
    zlookup i (mergePairs zm ps) = oOr (zlookup i ps.reverse) (zlookup i zm) := by
  induction ps generalizing zm with
  | nil => simp [mergePairs, zlookup, oOr]
  | cons hd tl ih =>
    obtain ⟨k, v⟩ := hd
    rw [mergePairs]
    rw [ih]
    rw [List.reverse_cons, zlookup_append, zlookup_zinsert]
    cases h : zlookup i tl.reverse with
    | none => by_cases hk : k = i <;> simp [oOr, zlookup, hk, h]
    | some w => simp [oOr, h]

theorem zlookup_isSome_mergePairs (i : Json) (zm : ZMap) (ps : List (Json × Json))
    (h : (zlookup i zm).isSome = true) :
    (zlookup i (mergePairs zm ps)).isSome = true := by
  rw [zlookup_mergePairs]
  cases hr : zlookup i ps.reverse <;> simp [oOr, hr, h]

theorem zlookup_mem {i : Json} {w : Json} {ps : ZMap}
    (h : zlookup i ps = some w) : (i, w) ∈ ps := by
  induction ps with
  | nil => simp [zlookup] at h
  | cons hd tl ih =>
    obtain ⟨k, v⟩ := hd
    by_cases hk : k = i
    · subst hk
      simp only [zlookup, if_pos rfl] at h
      simp [Option.some.inj h]
    · simp only [zlookup, if_neg hk] at h
      exact List.mem_cons_of_mem _ (ih h)

theorem zlookup_none_of_no_key {i : Json} {ps : ZMap}
    (h : ∀ p ∈ ps, p.1 ≠ i) : zlookup i ps = none := by
  induction ps with
  | nil => rfl
  | cons hd tl ih =>
    obtain ⟨k, v⟩ := hd
    have hk : k ≠ i := h (k, v) (List.mem_cons_self _ _)
    simp only [zlookup, if_neg hk]
    exact ih (fun p hp => h p (List.mem_cons_of_mem _ hp))

theorem zlookup_isSome_of_mem_key {i v : Json} {ps : ZMap}
    (h : (i, v) ∈ ps) : (zlookup i ps).isSome = true := by
  induction ps with
  | nil => simp at h
  | cons hd tl ih =>
    obtain ⟨k, w⟩ := hd
    by_cases hk : k = i
    · simp [zlookup, hk]
    · simp only [zlookup, if_neg hk]
      rcases List.mem_cons.mp h with heq | hmem
      · exact absurd (congrArg Prod.fst heq).symm hk
      · exact ih hmem

theorem mlookup_minsert (m m' : String) (v : ModuleRec) (mm : MMap) :
    mlookup m' (minsert m v mm) = if m = m' then some v else mlookup m' mm := by
  induction mm with
  | nil => simp [minsert, mlookup]
  | cons hd tl ih =>
    obtain ⟨k, w⟩ := hd
    simp only [minsert]
    by_cases hk : k = m
    · subst hk
      simp only [if_pos rfl, mlookup]
      by_cases hm : k = m' <;> simp [hm]
    · simp only [if_neg hk, mlookup]
      by_cases hm : k = m'
      · subst hm
        have hne : ¬(m = k) := fun h => hk h.symm
        simp [hne]
      · simp [hm, ih]

/-! ### State-update algebra -/

theorem init_user_id (st : TechState) (m : String) :
    (init_module_data st m).user_id = st.user_id := by
  unfold init_module_data
  split <;> rfl

theorem init_token (st : TechState) (m : String) :
    (init_module_data st m).token = st.token := by
  unfold init_module_data
  split <;> rfl

theorem init_authenticated (st : TechState) (m : String) :
    (init_module_data st m).authenticated = st.authenticated := by
  unfold init_module_data
  split <;> rfl

theorem init_authHeader (st : TechState) (m : String) :
    (init_module_data st m).authHeader = st.authHeader := by
  unfold init_module_data
  split <;> rfl

theorem userStr_init (st : TechState) (m : String) :
    userStr (init_module_data st m) = userStr st := by
  unfold userStr
  rw [init_user_id]

theorem setModule_user_id (st : TechState) (m : String) (f : ModuleRec → ModuleRec) :
    (setModule st m f).user_id = st.user_id := by
  unfold setModule
  split <;> rfl

theorem setModule_token (st : TechState) (m : String) (f : ModuleRec → ModuleRec) :
    (setModule st m f).token = st.token := by
  unfold setModule
  split <;> rfl

theorem setModule_authenticated (st : TechState) (m : String) (f : ModuleRec → ModuleRec) :
    (setModule st m f).authenticated = st.authenticated := by
  unfold setModule
  split <;> rfl

theorem setModule_authHeader (st : TechState) (m : String) (f : ModuleRec → ModuleRec) :
    (setModule st m f).authHeader = st.authHeader := by
  unfold setModule
  split <;> rfl

theorem userStr_setModule (st : TechState) (m : String) (f : ModuleRec → ModuleRec) :
    userStr (setModule st m f) = userStr st := by
  unfold userStr
  rw [setModule_user_id]

theorem minsert_self {m : String} {r : ModuleRec} {mm : MMap}
    (h : mlookup m mm = some r) : minsert m r mm = mm := by
  induction mm with
  | nil => simp [mlookup] at h
  | cons hd tl ih =>
    obtain ⟨k, w⟩ := hd
    by_cases hk : k = m
    · subst hk
      simp only [mlookup, if_pos rfl] at h
      simp [minsert, Option.some.inj h]
    · simp only [mlookup, if_neg hk] at h
      simp [minsert, hk, ih h]

theorem mlookup_init (st : TechState) (m m' : String) :
    mlookup m' (init_module_data st m).modules =
      if m = m' then some (modulesGet st m) else mlookup m' st.modules := by
  unfold init_module_data modulesGet
  cases hr : mlookup m st.modules with
  | some r =>
    by_cases hm : m = m'
    · subst hm
      simp [hr]
    · simp [hr, hm]
  | none =>
    by_cases hm : m = m'
    · subst hm
      simp [hr, mlookup_minsert]
    · simp [hr, hm, mlookup_minsert]

theorem mlookup_setModule (st : TechState) (m m' : String) (f : ModuleRec → ModuleRec) :
    mlookup m' (setModule st m f).modules =
      match mlookup m st.modules with
      | some r => if m = m' then some (f r) else mlookup m' st.modules
      | none => mlookup m' st.modules := by
  unfold setModule
  cases hr : mlookup m st.modules with
  | none => rfl
  | some r => simp [mlookup_minsert]

/-- `modulesGet` view of `setModule` at the touched module (present case). -/
theorem modulesGet_setModule_self {st : TechState} {m : String}
    (f : ModuleRec → ModuleRec) (h : (mlookup m st.modules).isSome = true) :
    modulesGet (setModule st m f) m = f (modulesGet st m) := by
  obtain ⟨r, hr⟩ := Option.isSome_iff_exists.mp h
  unfold modulesGet
  rw [mlookup_setModule, hr]
  simp [hr]

theorem mlookup_setModule_isSome {st : TechState} {m : String}
    (f : ModuleRec → ModuleRec) (h : (mlookup m st.modules).isSome = true) :
    (mlookup m (setModule st m f).modules).isSome = true := by
  obtain ⟨r, hr⟩ := Option.isSome_iff_exists.mp h
  rw [mlookup_setModule, hr]
  simp

theorem mlookup_init_isSome (st : TechState) (m : String) :
    (mlookup m (init_module_data st m).modules).isSome = true := by
  rw [mlookup_init]
  simp

theorem modulesGet_init_self (st : TechState) (m : String) :
    modulesGet (init_module_data st m) m = modulesGet st m := by
  unfold modulesGet
  rw [mlookup_init]
  simp [modulesGet]

theorem zonesOf_init (st : TechState) (m m' : String) :
    zonesOf (init_module_data st m) m' = zonesOf st m' := by
  unfold zonesOf modulesGet
  rw [mlookup_init]
  by_cases hm : m = m'
  · subst hm
    cases hr : mlookup m st.modules <;> simp [hr, modulesGet, emptyModuleRec]
  · simp [hm]

theorem tilesOf_init (st : TechState) (m m' : String) :
    tilesOf (init_module_data st m) m' = tilesOf st m' := by
  unfold tilesOf modulesGet
  rw [mlookup_init]
  by_cases hm : m = m'
  · subst hm
    cases hr : mlookup m st.modules <;> simp [hr, modulesGet, emptyModuleRec]
  · simp [hm]

theorem last_update_init (st : TechState) (m m' : String) :
    get_module_last_update (init_module_data st m) m' = get_module_last_update st m' := by
  unfold get_module_last_update
  rw [mlookup_init]
  by_cases hm : m = m'
  · subst hm
    cases hr : mlookup m st.modules <;> simp [hr, modulesGet, emptyModuleRec]
  · simp [hm]

theorem setModule_id (st : TechState) (m : String) :
    setModule st m (fun r => r) = st := by
  unfold setModule
  cases hr : mlookup m st.modules with
  | none => rfl
  | some r => simp [minsert_self hr]

/-! ### Closed forms of the refresh operations -/

/-- The request `get_module_data` issues. -/
def moduleReq (st : TechState) (module_udid : String) : Request :=
  ⟨"GET", "users/" ++ userStr st ++ "/modules/" ++ module_udid, none⟩

theorem moduleResp_req (srv : Server) (st : TechState) (m : String) :
    moduleResp srv st m = srv (moduleReq st m) := rfl

/-- The zone assignments (and possible `KeyError`) a refresh performs on a
decoded payload. -/
def zoneMergeList (result : Json) : List (Json × Json) × Option PyErr :=
  if (zonesField result).truthy then zonePairs (filter_zones (jarr (zonesField result)))
  else ([], none)

/-- The tile assignments (and possible `KeyError`) a refresh performs on a
decoded payload. -/
def tileMergeList (result : Json) : List (Json × Json) × Option PyErr :=
  if (tilesField result).truthy then tilePairs (filter_tiles (jarr (tilesField result)))
  else ([], none)

/-- Closed form of the state after `get_module_zones` (authenticated case). -/
def gmzState (srv : Server) (st : TechState) (m : String) : TechState :=
  match moduleResp srv st m with
  | .error _ => init_module_data st m
  | .ok result =>
    setModule (init_module_data st m) m
      (fun r => { r with zones := mergePairs r.zones (zoneMergeList result).1 })

/-- Closed form of the outcome of `get_module_zones` (authenticated case). -/
def gmzResult (srv : Server) (st : TechState) (m : String) : Except PyErr ZMap :=
  match moduleResp srv st m with
  | .error f => .error (.techError f.status f.msg)
  | .ok result =>
    match (zoneMergeList result).2 with
    | some err => .error err
    | none => .ok (zonesOf (gmzState srv st m) m)

/-- Closed form of the state after `get_module_tiles` (authenticated case). -/
def gmtState (srv : Server) (st : TechState) (m : String) : TechState :=
  match moduleResp srv st m with
  | .error _ => init_module_data st m
  | .ok result =>
    setModule (init_module_data st m) m
      (fun r => { r with tiles := mergePairs r.tiles (tileMergeList result).1 })

/-- Closed form of the outcome of `get_module_tiles` (authenticated case). -/
def gmtResult (srv : Server) (st : TechState) (m : String) : Except PyErr ZMap :=
  match moduleResp srv st m with
  | .error f => .error (.techError f.status f.msg)
  | .ok result =>
    match (tileMergeList result).2 with
    | some err => .error err
    | none => .ok (tilesOf (gmtState srv st m) m)

/-- Closed form of the state after `module_data` (authenticated case). -/
def mdState (srv : Server) (now : Nat) (st : TechState) (m : String) : TechState :=
  match moduleResp srv st m with
  | .error _ => init_module_data st m
  | .ok result =>
    let st3 := setModule (init_module_data st m) m
      (fun r => { r with zones := mergePairs r.zones (zoneMergeList result).1 })
    match (zoneMergeList result).2 with
    | some _ => st3
    | none =>
      let st4 := setModule st3 m
        (fun r => { r with tiles := mergePairs r.tiles (tileMergeList result).1 })
      match (tileMergeList result).2 with
      | some _ => st4
      | none => setModule st4 m (fun r => { r with last_update := some now })

/-- Closed form of the outcome of `module_data` (authenticated case). -/
def mdResult (srv : Server) (now : Nat) (st : TechState) (m : String) :
    Except PyErr ModuleRec :=
  match moduleResp srv st m with
  | .error f => .error (.techError f.status f.msg)
  | .ok result =>
    match (zoneMergeList result).2 with
    | some err => .error err
    | none =>
      match (tileMergeList result).2 with
      | some err => .error err
      | none => .ok (modulesGet (mdState srv now st m) m)

theorem get_unauth (srv : Server) (st : TechState) (path : String)
    (h : st.authenticated = false) :
    get srv st path = (st, [], .error (.techError 401 "Not authenticated")) := by
  unfold get guarded
  simp [h]

theorem post_unauth (srv : Server) (st : TechState) (path : String) (data : Json)
    (h : st.authenticated = false) :
    post srv st path data = (st, [], .error (.techError 401 "Not authenticated")) := by
  unfold post guarded
  simp [h]

theorem list_modules_unauth (srv : Server) (st : TechState)
    (h : st.authenticated = false) :
    list_modules srv st = (st, [], .error (.techError 401 "Not authenticated")) := by
  unfold list_modules guarded
  simp [h]

theorem get_module_data_unauth (srv : Server) (st : TechState) (m : String)
    (h : st.authenticated = false) :
    get_module_data srv st m = (st, [], .error (.techError 401 "Not authenticated")) := by
  unfold get_module_data guarded
  simp [h]

theorem get_translations_unauth (supported : List String) (srv : Server)
    (st : TechState) (language : String) (h : st.authenticated = false) :
    get_translations supported srv st language =
      (st, [], .error (.techError 401 "Not authenticated")) := by
  unfold get_translations guarded
  simp [h]

theorem get_module_zones_unauth (srv : Server) (st : TechState) (m : String)
    (h : st.authenticated = false) :
    get_module_zones srv st m = (st, [], .error (.techError 401 "Not authenticated")) := by
  unfold get_module_zones guarded
  simp [h]

theorem get_module_tiles_unauth (srv : Server) (st : TechState) (m : String)
    (h : st.authenticated = false) :
    get_module_tiles srv st m = (st, [], .error (.techError 401 "Not authenticated")) := by
  unfold get_module_tiles guarded
  simp [h]

theorem module_data_unauth (srv : Server) (now : Nat) (st : TechState) (m : String)
    (h : st.authenticated = false) :
    module_data srv now st m = (st, [], .error (.techError 401 "Not authenticated")) := by
  unfold module_data guarded
  simp [h]

theorem set_const_temp_unauth (srv : Server) (st : TechState) (m : String)
    (zone_id : Json) (t : ℚ) (h : st.authenticated = false) :
    set_const_temp srv st m zone_id t =
      (st, [], .error (.techError 401 "Not authenticated")) := by
  unfold set_const_temp guarded
  simp [h]

theorem set_zone_unauth (srv : Server) (st : TechState) (m : String)
    (zone_id : Json) (onFlag : Bool) (h : st.authenticated = false) :
    set_zone srv st m zone_id onFlag =
      (st, [], .error (.techError 401 "Not authenticated")) := by
  unfold set_zone guarded
  simp [h]

theorem setModule_merge_nil (st : TechState) (m : String) :
    setModule st m (fun r => { r with zones := mergePairs r.zones [] }) = st := by
  have hf : (fun (r : ModuleRec) => { r with zones := mergePairs r.zones [] }) =
      fun r => r := by
    funext r
    rfl
  rw [hf, setModule_id]

theorem setModule_merge_tiles_nil (st : TechState) (m : String) :
    setModule st m (fun r => { r with tiles := mergePairs r.tiles [] }) = st := by
  have hf : (fun (r : ModuleRec) => { r with tiles := mergePairs r.tiles [] }) =
      fun r => r := by
    funext r
    rfl
  rw [hf, setModule_id]

theorem gmz_eq (srv : Server) (st : TechState) (m : String)
    (h : st.authenticated = true) :
    get_module_zones srv st m =
      (gmzState srv st m, [moduleReq st m], gmzResult srv st m) := by
  simp only [get_module_zones, gmzState, gmzResult, guarded, get_module_data, get,
    make_request, moduleResp, moduleReq, h, init_authenticated, userStr_init,
    if_true, eq_self_iff_true, ite_true]
  cases hresp :
      srv ⟨"GET", "users/" ++ userStr st ++ "/modules/" ++ m, none⟩ with
  | error f => rfl
  | ok result =>
    by_cases ht : (zonesField result).truthy
    · simp only [zoneMergeList, ht, if_true, Bool.not_true]
      cases hz : zonePairs (filter_zones (jarr (zonesField result))) with
      | mk ps e =>
        cases e with
        | none => simp
        | some err => simp
    · have ht' : (zonesField result).truthy = false := by
        simpa using ht
      simp only [zoneMergeList, ht', Bool.false_eq_true, if_false]
      simp only [setModule_merge_nil]
      simp

theorem gmt_eq (srv : Server) (st : TechState) (m : String)
    (h : st.authenticated = true) :
    get_module_tiles srv st m =
      (gmtState srv st m, [moduleReq st m], gmtResult srv st m) := by
  simp only [get_module_tiles, gmtState, gmtResult, guarded, get_module_data, get,
    make_request, moduleResp, moduleReq, h, init_authenticated, userStr_init,
    if_true, eq_self_iff_true, ite_true]
  cases hresp :
      srv ⟨"GET", "users/" ++ userStr st ++ "/modules/" ++ m, none⟩ with
  | error f => rfl
  | ok result =>
    by_cases ht : (tilesField result).truthy
    · simp only [tileMergeList, ht, if_true, Bool.not_true]
      cases hz : tilePairs (filter_tiles (jarr (tilesField result))) with
      | mk ps e =>
        cases e with
        | none => simp
        | some err => simp
    · have ht' : (tilesField result).truthy = false := by
        simpa using ht
      simp only [tileMergeList, ht', Bool.false_eq_true, if_false]
      simp only [setModule_merge_tiles_nil]
      simp

theorem md_eq (srv : Server) (now : Nat) (st : TechState) (m : String)
    (h : st.authenticated = true) :
    module_data srv now st m =
      (mdState srv now st m, [moduleReq st m], mdResult srv now st m) := by
  simp only [module_data, mdState, mdResult, guarded, get_module_data, get,
    make_request, moduleResp, moduleReq, h, init_authenticated, userStr_init,
    if_true, eq_self_iff_true, ite_true]
  cases hresp :
      srv ⟨"GET", "users/" ++ userStr st ++ "/modules/" ++ m, none⟩ with
  | error f => rfl
  | ok result =>
    by_cases ht : (zonesField result).truthy
    · simp only [zoneMergeList, ht, if_true, Bool.not_true]
      cases hz : zonePairs (filter_zones (jarr (zonesField result))) with
      | mk ps ze =>
        cases ze with
        | some err => simp
        | none =>
          by_cases tt : (tilesField result).truthy
          · simp only [tileMergeList, tt, if_true]
            cases htp : tilePairs (filter_tiles (jarr (tilesField result))) with
            | mk tps te =>
              cases te with
              | some err => simp
              | none => simp
          · have tt' : (tilesField result).truthy = false := by
              simpa using tt
            simp [tileMergeList, tt', setModule_merge_tiles_nil]
    · have ht' : (zonesField result).truthy = false := by
        simpa using ht
      simp only [zoneMergeList, ht', Bool.false_eq_true, if_false]
      simp only [setModule_merge_nil]
      by_cases tt : (tilesField result).truthy
      · simp only [tileMergeList, tt, if_true]
        cases htp : tilePairs (filter_tiles (jarr (tilesField result))) with
        | mk tps te =>
          cases te with
          | some err => simp
          | none => simp
      · have tt' : (tilesField result).truthy = false := by
          simpa using tt
        simp [tileMergeList, tt', setModule_merge_tiles_nil]

/-! ### Observable effects of the refresh operations -/

/-- The zone assignments a refresh (any of the three) performs, as a function
of the server's answer. -/
def mdZonePairs (srv : Server) (st : TechState) (m : String) : List (Json × Json) :=
  match moduleResp srv st m with
  | .error _ => []
  | .ok result => (zoneMergeList result).1

/-- The tile assignments `get_module_tiles` performs. -/
def gmtTilePairs (srv : Server) (st : TechState) (m : String) : List (Json × Json) :=
  match moduleResp srv st m with
  | .error _ => []
  | .ok result => (tileMergeList result).1

/-- The tile assignments `module_data` performs (none when the zone merge
raised first). -/
def mdTilePairs (srv : Server) (st : TechState) (m : String) : List (Json × Json) :=
  match moduleResp srv st m with
  | .error _ => []
  | .ok result =>
    match (zoneMergeList result).2 with
    | some _ => []
    | none => (tileMergeList result).1

/-- The credential fields of two states agree. -/
def credsEq (a b : TechState) : Prop :=
  a.user_id = b.user_id ∧ a.token = b.token ∧
    a.authenticated = b.authenticated ∧ a.authHeader = b.authHeader

theorem credsEq_refl (a : TechState) : credsEq a a :=
  ⟨rfl, rfl, rfl, rfl⟩

theorem credsEq_trans {a b c : TechState} (h1 : credsEq a b) (h2 : credsEq b c) :
    credsEq a c :=
  ⟨h1.1.trans h2.1, h1.2.1.trans h2.2.1, h1.2.2.1.trans h2.2.2.1,
    h1.2.2.2.trans h2.2.2.2⟩

theorem credsEq_init (st : TechState) (m : String) :
    credsEq (init_module_data st m) st :=
  ⟨init_user_id st m, init_token st m, init_authenticated st m, init_authHeader st m⟩

theorem credsEq_setModule (st : TechState) (m : String) (f : ModuleRec → ModuleRec) :
    credsEq (setModule st m f) st :=
  ⟨setModule_user_id st m f, setModule_token st m f,
    setModule_authenticated st m f, setModule_authHeader st m f⟩

theorem gmzState_creds (srv : Server) (st : TechState) (m : String) :
    credsEq (gmzState srv st m) st := by
  unfold gmzState
  cases moduleResp srv st m with
  | error f => exact credsEq_init st m
  | ok result => exact credsEq_trans (credsEq_setModule _ m _) (credsEq_init st m)

theorem gmtState_creds (srv : Server) (st : TechState) (m : String) :
    credsEq (gmtState srv st m) st := by
  unfold gmtState
  cases moduleResp srv st m with
  | error f => exact credsEq_init st m
  | ok result => exact credsEq_trans (credsEq_setModule _ m _) (credsEq_init st m)

theorem mdState_creds (srv : Server) (now : Nat) (st : TechState) (m : String) :
    credsEq (mdState srv now st m) st := by
  unfold mdState
  cases moduleResp srv st m with
  | error f => exact credsEq_init st m
  | ok result =>
    dsimp only
    cases (zoneMergeList result).2 with
    | some err => exact credsEq_trans (credsEq_setModule _ m _) (credsEq_init st m)
    | none =>
      cases (tileMergeList result).2 with
      | some err =>
        exact credsEq_trans (credsEq_setModule _ m _)
          (credsEq_trans (credsEq_setModule _ m _) (credsEq_init st m))
      | none =>
        exact credsEq_trans (credsEq_setModule _ m _)
          (credsEq_trans (credsEq_setModule _ m _)
            (credsEq_trans (credsEq_setModule _ m _) (credsEq_init st m)))

/-- `setModule` with a zones-only update leaves every tiles map unchanged. -/
theorem tilesOf_setModule_zones (st : TechState) (m m' : String)
    (f : ModuleRec → ModuleRec) (hf : ∀ r, (f r).tiles = r.tiles) :
    tilesOf (setModule st m f) m' = tilesOf st m' := by
  unfold tilesOf modulesGet
  rw [mlookup_setModule]
  cases hr : mlookup m st.modules with
  | none => rfl
  | some r =>
    by_cases hm : m = m'
    · subst hm
      simp [hr, hf]
    · simp [hm]

theorem zonesOf_setModule_tiles (st : TechState) (m m' : String)
    (f : ModuleRec → ModuleRec) (hf : ∀ r, (f r).zones = r.zones) :
    zonesOf (setModule st m f) m' = zonesOf st m' := by
  unfold zonesOf modulesGet
  rw [mlookup_setModule]
  cases hr : mlookup m st.modules with
  | none => rfl
  | some r =>
    by_cases hm : m = m'
    · subst hm
      simp [hr, hf]
    · simp [hm]

theorem last_update_setModule (st : TechState) (m m' : String)
    (f : ModuleRec → ModuleRec) (hf : ∀ r, (f r).last_update = r.last_update) :
    get_module_last_update (setModule st m f) m' = get_module_last_update st m' := by
  unfold get_module_last_update
  rw [mlookup_setModule]
  cases hr : mlookup m st.modules with
  | none => rfl
  | some r =>
    by_cases hm : m = m'
    · subst hm
      simp [hr, hf]
    · simp [hm]

theorem zonesOf_setModule_other {m m' : String} (st : TechState)
    (f : ModuleRec → ModuleRec) (hm : m ≠ m') :
    zonesOf (setModule st m f) m' = zonesOf st m' := by
  unfold zonesOf modulesGet
  rw [mlookup_setModule]
  cases hr : mlookup m st.modules with
  | none => rfl
  | some r => simp [hm]

theorem tilesOf_setModule_other {m m' : String} (st : TechState)
    (f : ModuleRec → ModuleRec) (hm : m ≠ m') :
    tilesOf (setModule st m f) m' = tilesOf st m' := by
  unfold tilesOf modulesGet
  rw [mlookup_setModule]
  cases hr : mlookup m st.modules with
  | none => rfl
  | some r => simp [hm]

theorem zonesOf_gmzState (srv : Server) (st : TechState) (m : String) :
    zonesOf (gmzState srv st m) m = mergePairs (zonesOf st m) (mdZonePairs srv st m) := by
  unfold gmzState mdZonePairs
  cases moduleResp srv st m with
  | error f =>
    dsimp only
    rw [zonesOf_init]
    rfl
  | ok result =>
    dsimp only
    unfold zonesOf
    rw [modulesGet_setModule_self
        (fun r => { r with zones := mergePairs r.zones (zoneMergeList result).1 })
        (mlookup_init_isSome st m), modulesGet_init_self]

theorem tilesOf_gmzState (srv : Server) (st : TechState) (m m' : String) :
    tilesOf (gmzState srv st m) m' = tilesOf st m' := by
  unfold gmzState
  cases moduleResp srv st m with
  | error f =>
    dsimp only
    rw [tilesOf_init]
  | ok result =>
    dsimp only
    rw [tilesOf_setModule_zones (init_module_data st m) m m'
        (fun r => { r with zones := mergePairs r.zones (zoneMergeList result).1 })
        (fun r => rfl), tilesOf_init]

theorem last_update_gmzState (srv : Server) (st : TechState) (m m' : String) :
    get_module_last_update (gmzState srv st m) m' = get_module_last_update st m' := by
  unfold gmzState
  cases moduleResp srv st m with
  | error f =>
    dsimp only
    rw [last_update_init]
  | ok result =>
    dsimp only
    rw [last_update_setModule (init_module_data st m) m m'
        (fun r => { r with zones := mergePairs r.zones (zoneMergeList result).1 })
        (fun r => rfl), last_update_init]

theorem tilesOf_gmtState (srv : Server) (st : TechState) (m : String) :
    tilesOf (gmtState srv st m) m = mergePairs (tilesOf st m) (gmtTilePairs srv st m) := by
  unfold gmtState gmtTilePairs
  cases moduleResp srv st m with
  | error f =>
    dsimp only
    rw [tilesOf_init]
    rfl
  | ok result =>
    dsimp only
    unfold tilesOf
    rw [modulesGet_setModule_self
        (fun r => { r with tiles := mergePairs r.tiles (tileMergeList result).1 })
        (mlookup_init_isSome st m), modulesGet_init_self]

theorem zonesOf_gmtState (srv : Server) (st : TechState) (m m' : String) :
    zonesOf (gmtState srv st m) m' = zonesOf st m' := by
  unfold gmtState
  cases moduleResp srv st m with
  | error f =>
    dsimp only
    rw [zonesOf_init]
  | ok result =>
    dsimp only
    rw [zonesOf_setModule_tiles (init_module_data st m) m m'
        (fun r => { r with tiles := mergePairs r.tiles (tileMergeList result).1 })
        (fun r => rfl), zonesOf_init]

theorem last_update_gmtState (srv : Server) (st : TechState) (m m' : String) :
    get_module_last_update (gmtState srv st m) m' = get_module_last_update st m' := by
  unfold gmtState
  cases moduleResp srv st m with
  | error f =>
    dsimp only
    rw [last_update_init]
  | ok result =>
    dsimp only
    rw [last_update_setModule (init_module_data st m) m m'
        (fun r => { r with tiles := mergePairs r.tiles (tileMergeList result).1 })
        (fun r => rfl), last_update_init]

theorem zonesOf_mdState (srv : Server) (now : Nat) (st : TechState) (m : String) :
    zonesOf (mdState srv now st m) m = mergePairs (zonesOf st m) (mdZonePairs srv st m) := by
  unfold mdState mdZonePairs
  cases moduleResp srv st m with
  | error f =>
    dsimp only
    rw [zonesOf_init]
    rfl
  | ok result =>
    dsimp only
    have h3 : zonesOf (setModule (init_module_data st m) m
        (fun r => { r with zones := mergePairs r.zones (zoneMergeList result).1 })) m =
        mergePairs (zonesOf st m) (zoneMergeList result).1 := by
      unfold zonesOf
      rw [modulesGet_setModule_self
          (fun r => { r with zones := mergePairs r.zones (zoneMergeList result).1 })
          (mlookup_init_isSome st m), modulesGet_init_self]
    cases (zoneMergeList result).2 with
    | some err => exact h3
    | none =>
      dsimp only
      have h4 := zonesOf_setModule_tiles
        (setModule (init_module_data st m) m
          (fun r => { r with zones := mergePairs r.zones (zoneMergeList result).1 })) m m
        (fun r => { r with tiles := mergePairs r.tiles (tileMergeList result).1 })
        (fun r => rfl)
      cases (tileMergeList result).2 with
      | some err => rw [h4, h3]
      | none =>
        rw [zonesOf_setModule_tiles _ m m
            (fun r => { r with last_update := some now }) (fun r => rfl), h4, h3]

theorem tilesOf_mdState (srv : Server) (now : Nat) (st : TechState) (m : String) :
    tilesOf (mdState srv now st m) m = mergePairs (tilesOf st m) (mdTilePairs srv st m) := by
  unfold mdState mdTilePairs
  cases moduleResp srv st m with
  | error f =>
    dsimp only
    rw [tilesOf_init]
    rfl
  | ok result =>
    dsimp only
    have h3 : tilesOf (setModule (init_module_data st m) m
        (fun r => { r with zones := mergePairs r.zones (zoneMergeList result).1 })) m =
        tilesOf st m := by
      rw [tilesOf_setModule_zones (init_module_data st m) m m
          (fun r => { r with zones := mergePairs r.zones (zoneMergeList result).1 })
          (fun r => rfl), tilesOf_init]
    cases (zoneMergeList result).2 with
    | some err =>
      dsimp only
      rw [h3]
      rfl
    | none =>
      dsimp only
      have hpres : (mlookup m (setModule (init_module_data st m) m
          (fun r => { r with zones := mergePairs r.zones (zoneMergeList result).1 })).modules).isSome
          = true :=
        mlookup_setModule_isSome _ (mlookup_init_isSome st m)
      have h4 : tilesOf (setModule (setModule (init_module_data st m) m
          (fun r => { r with zones := mergePairs r.zones (zoneMergeList result).1 })) m
          (fun r => { r with tiles := mergePairs r.tiles (tileMergeList result).1 })) m =
          mergePairs (tilesOf st m) (tileMergeList result).1 := by
        unfold tilesOf
        rw [modulesGet_setModule_self
            (fun r => { r with tiles := mergePairs r.tiles (tileMergeList result).1 }) hpres]
        have h3' : (modulesGet (setModule (init_module_data st m) m
            (fun r => { r with zones := mergePairs r.zones (zoneMergeList result).1 })) m).tiles
            = (modulesGet st m).tiles := h3
        show mergePairs (modulesGet (setModule (init_module_data st m) m
            (fun r => { r with zones := mergePairs r.zones (zoneMergeList result).1 })) m).tiles
            (tileMergeList result).1 = _
        rw [h3']
      cases (tileMergeList result).2 with
      | some err => exact h4
      | none =>
        rw [tilesOf_setModule_zones _ m m
            (fun r => { r with last_update := some now }) (fun r => rfl), h4]

theorem last_update_setModule_self {st : TechState} {m : String}
    (f : ModuleRec → ModuleRec) (h : (mlookup m st.modules).isSome = true) :
    get_module_last_update (setModule st m f) m = (f (modulesGet st m)).last_update := by
  obtain ⟨r, hr⟩ := Option.isSome_iff_exists.mp h
  unfold get_module_last_update
  rw [mlookup_setModule, hr]
  simp [modulesGet, hr]

/-- A successful `module_data` stamps the module's `last_update` with `now`. -/
theorem md_ok_stamp (srv : Server) (now : Nat) (st : TechState) (m : String)
    (rec : ModuleRec) (hok : mdResult srv now st m = .ok rec) :
    get_module_last_update (mdState srv now st m) m = some now := by
  unfold mdResult at hok
  unfold mdState
  cases hresp : moduleResp srv st m with
  | error f =>
    rw [hresp] at hok
    exact absurd hok (by simp)
  | ok result =>
    rw [hresp] at hok
    dsimp only at hok ⊢
    cases hz : (zoneMergeList result).2 with
    | some err =>
      rw [hz] at hok
      exact absurd hok (by simp)
    | none =>
      rw [hz] at hok
      dsimp only at hok ⊢
      cases htl : (tileMergeList result).2 with
      | some err =>
        rw [htl] at hok
        exact absurd hok (by simp)
      | none =>
        have hpres1 : (mlookup m (setModule (init_module_data st m) m
            (fun r => { r with zones := mergePairs r.zones (zoneMergeList result).1 })).modules).isSome
            = true :=
          mlookup_setModule_isSome _ (mlookup_init_isSome st m)
        have hpres2 := mlookup_setModule_isSome
          (fun r => { r with tiles := mergePairs r.tiles (tileMergeList result).1 }) hpres1
        rw [last_update_setModule_self (fun r => { r with last_update := some now }) hpres2]

/-! ### Membership structure of the merge pair lists -/

theorem zonePairs_mem {L : List Json} {k v : Json}
    (h : (k, v) ∈ (zonePairs L).1) : v ∈ L ∧ zoneIdOf v = some k := by
  induction L with
  | nil => simp [zonePairs] at h
  | cons z rest ih =>
    unfold zonePairs at h
    cases hz : z.find "zone" with
    | none =>
      rw [hz] at h
      simp at h
    | some sub =>
      rw [hz] at h
      dsimp only at h
      cases hid : sub.find "id" with
      | none =>
        rw [hid] at h
        simp at h
      | some zid =>
        rw [hid] at h
        dsimp only at h
        cases hzp : zonePairs rest with
        | mk ps e =>
          rw [hzp] at h
          dsimp only at h
          rcases List.mem_cons.mp h with heq | hmem
          · obtain ⟨hk, hv⟩ := Prod.mk.inj heq
            subst hk
            subst hv
            exact ⟨List.mem_cons_self _ _, by simp [zoneIdOf, hz, hid]⟩
          · have hmem' : (k, v) ∈ (zonePairs rest).1 := by
              rw [hzp]
              exact hmem
            obtain ⟨hv, hidv⟩ := ih hmem'
            exact ⟨List.mem_cons_of_mem _ hv, hidv⟩

theorem tilePairs_mem {L : List Json} {k v : Json}
    (h : (k, v) ∈ (tilePairs L).1) : v ∈ L ∧ tileIdOf v = some k := by
  induction L with
  | nil => simp [tilePairs] at h
  | cons t rest ih =>
    unfold tilePairs at h
    cases hid : t.find "id" with
    | none =>
      rw [hid] at h
      simp at h
    | some tid =>
      rw [hid] at h
      dsimp only at h
      cases htp : tilePairs rest with
      | mk ps e =>
        rw [htp] at h
        dsimp only at h
        rcases List.mem_cons.mp h with heq | hmem
        · obtain ⟨hk, hv⟩ := Prod.mk.inj heq
          subst hk
          subst hv
          exact ⟨List.mem_cons_self _ _, by simp [tileIdOf, hid]⟩
        · have hmem' : (k, v) ∈ (tilePairs rest).1 := by
            rw [htp]
            exact hmem
          obtain ⟨hv, hidv⟩ := ih hmem'
          exact ⟨List.mem_cons_of_mem _ hv, hidv⟩

/-- Members of a JSON array force truthiness of the array value. -/
theorem jarr_truthy {j z : Json} (h : z ∈ jarr j) : j.truthy = true := by
  cases j with
  | arr xs =>
    cases xs with
    | nil => simp [jarr] at h
    | cons a rest => simp [Json.truthy]
  | null => simp [jarr] at h
  | bool b => simp [jarr] at h
  | int n => simp [jarr] at h
  | str s => simp [jarr] at h
  | obj fs => simp [jarr] at h

/-- The records the server's answer offers as zone elements. -/
def respZoneRecords (resp : Except TechFail Json) : List Json :=
  match resp with
  | .error _ => []
  | .ok result => jarr (zonesField result)

/-- The records the server's answer offers as tiles. -/
def respTileRecords (resp : Except TechFail Json) : List Json :=
  match resp with
  | .error _ => []
  | .ok result => jarr (tilesField result)

theorem mdZonePairs_mem {srv : Server} {st : TechState} {m : String} {k v : Json}
    (h : (k, v) ∈ mdZonePairs srv st m) :
    v ∈ respZoneRecords (moduleResp srv st m) ∧ zoneValid v = true ∧
      zoneIdOf v = some k := by
  unfold mdZonePairs at h
  unfold respZoneRecords
  cases hresp : moduleResp srv st m with
  | error f =>
    rw [hresp] at h
    simp at h
  | ok result =>
    rw [hresp] at h
    dsimp only at h ⊢
    unfold zoneMergeList at h
    by_cases ht : (zonesField result).truthy
    · rw [if_pos ht] at h
      obtain ⟨hv, hidv⟩ := zonePairs_mem h
      obtain ⟨hmem, hvalid⟩ := List.mem_filter.mp hv
      exact ⟨hmem, hvalid, hidv⟩
    · rw [if_neg ht] at h
      simp at h

theorem gmtTilePairs_mem {srv : Server} {st : TechState} {m : String} {k v : Json}
    (h : (k, v) ∈ gmtTilePairs srv st m) :
    v ∈ respTileRecords (moduleResp srv st m) ∧ tileVisible v = true ∧
      tileIdOf v = some k := by
  unfold gmtTilePairs at h
  unfold respTileRecords
  cases hresp : moduleResp srv st m with
  | error f =>
    rw [hresp] at h
    simp at h
  | ok result =>
    rw [hresp] at h
    dsimp only at h ⊢
    unfold tileMergeList at h
    by_cases ht : (tilesField result).truthy
    · rw [if_pos ht] at h
      obtain ⟨hv, hidv⟩ := tilePairs_mem h
      obtain ⟨hmem, hvalid⟩ := List.mem_filter.mp hv
      exact ⟨hmem, hvalid, hidv⟩
    · rw [if_neg ht] at h
      simp at h

theorem mdTilePairs_sub {srv : Server} {st : TechState} {m : String} {k v : Json}
    (h : (k, v) ∈ mdTilePairs srv st m) : (k, v) ∈ gmtTilePairs srv st m := by
  unfold mdTilePairs at h
  unfold gmtTilePairs
  cases hresp : moduleResp srv st m with
  | error f =>
    rw [hresp] at h
    simp at h
  | ok result =>
    rw [hresp] at h
    dsimp only at h ⊢
    cases hz : (zoneMergeList result).2 with
    | some err =>
      rw [hz] at h
      simp at h
    | none =>
      rw [hz] at h
      exact h

theorem md_zonesOf_auth (srv : Server) (now : Nat) (st : TechState) (m : String)
    (h : st.authenticated = true) :
    zonesOf ((module_data srv now st m).1) m =
      mergePairs (zonesOf st m) (mdZonePairs srv st m) := by
  rw [md_eq srv now st m h]
  exact zonesOf_mdState srv now st m

theorem md_tilesOf_auth (srv : Server) (now : Nat) (st : TechState) (m : String)
    (h : st.authenticated = true) :
    tilesOf ((module_data srv now st m).1) m =
      mergePairs (tilesOf st m) (mdTilePairs srv st m) := by
  rw [md_eq srv now st m h]
  exact tilesOf_mdState srv now st m

theorem gmz_zonesOf_auth (srv : Server) (st : TechState) (m : String)
    (h : st.authenticated = true) :
    zonesOf ((get_module_zones srv st m).1) m =
      mergePairs (zonesOf st m) (mdZonePairs srv st m) := by
  rw [gmz_eq srv st m h]
  exact zonesOf_gmzState srv st m

theorem gmz_tilesOf_auth (srv : Server) (st : TechState) (m m' : String)
    (h : st.authenticated = true) :
    tilesOf ((get_module_zones srv st m).1) m' = tilesOf st m' := by
  rw [gmz_eq srv st m h]
  exact tilesOf_gmzState srv st m m'

theorem gmt_tilesOf_auth (srv : Server) (st : TechState) (m : String)
    (h : st.authenticated = true) :
    tilesOf ((get_module_tiles srv st m).1) m =
      mergePairs (tilesOf st m) (gmtTilePairs srv st m) := by
  rw [gmt_eq srv st m h]
  exact tilesOf_gmtState srv st m

theorem gmt_zonesOf_auth (srv : Server) (st : TechState) (m m' : String)
    (h : st.authenticated = true) :
    zonesOf ((get_module_tiles srv st m).1) m' = zonesOf st m' := by
  rw [gmt_eq srv st m h]
  exact zonesOf_gmtState srv st m m'

theorem mdZonePairs_rev_none (srv : Server) (st : TechState) (m : String) (i : Json)
    (hz : ∀ z ∈ respZoneRecords (moduleResp srv st m), zoneIdOf z ≠ some i) :
    zlookup i (mdZonePairs srv st m).reverse = none := by
  apply zlookup_none_of_no_key
  intro p hp
  rw [List.mem_reverse] at hp
  obtain ⟨k, v⟩ := p
  obtain ⟨hmem, _, hid⟩ := mdZonePairs_mem hp
  intro hk
  subst hk
  exact hz v hmem hid

theorem gmtTilePairs_rev_none (srv : Server) (st : TechState) (m : String) (i : Json)
    (ht : ∀ t ∈ respTileRecords (moduleResp srv st m), tileIdOf t ≠ some i) :
    zlookup i (gmtTilePairs srv st m).reverse = none := by
  apply zlookup_none_of_no_key
  intro p hp
  rw [List.mem_reverse] at hp
  obtain ⟨k, v⟩ := p
  obtain ⟨hmem, _, hid⟩ := gmtTilePairs_mem hp
  intro hk
  subst hk
  exact ht v hmem hid

theorem mdTilePairs_rev_none (srv : Server) (st : TechState) (m : String) (i : Json)
    (ht : ∀ t ∈ respTileRecords (moduleResp srv st m), tileIdOf t ≠ some i) :
    zlookup i (mdTilePairs srv st m).reverse = none := by
  apply zlookup_none_of_no_key
  intro p hp
  rw [List.mem_reverse] at hp
  obtain ⟨k, v⟩ := p
  obtain ⟨hmem, _, hid⟩ := gmtTilePairs_mem (mdTilePairs_sub hp)
  intro hk
  subst hk
  exact ht v hmem hid

theorem oOr_none_left (x : Option Json) : oOr none x = x := rfl

/-- C1: a refresh whose payload does not carry a given id leaves that id's
cached entry unchanged; refreshes never delete cached ids. -/
theorem C1_monotonic_merge (srv : Server) (now : Nat) (st : TechState)
    (m : String) (i : Json)
    (hz : ∀ z ∈ respZoneRecords (moduleResp srv st m), zoneIdOf z ≠ some i)
    (ht : ∀ t ∈ respTileRecords (moduleResp srv st m), tileIdOf t ≠ some i) :
    zlookup i (zonesOf ((module_data srv now st m).1) m) = zlookup i (zonesOf st m) ∧
    zlookup i (tilesOf ((module_data srv now st m).1) m) = zlookup i (tilesOf st m) ∧
    zlookup i (zonesOf ((get_module_zones srv st m).1) m) = zlookup i (zonesOf st m) ∧
    zlookup i (tilesOf ((get_module_zones srv st m).1) m) = zlookup i (tilesOf st m) ∧
    zlookup i (zonesOf ((get_module_tiles srv st m).1) m) = zlookup i (zonesOf st m) ∧
    zlookup i (tilesOf ((get_module_tiles srv st m).1) m) = zlookup i (tilesOf st m) ∧
    (∀ j w, zlookup j (zonesOf st m) = some w →
      (zlookup j (zonesOf ((module_data srv now st m).1) m)).isSome = true) ∧
    (∀ j w, zlookup j (tilesOf st m) = some w →
      (zlookup j (tilesOf ((module_data srv now st m).1) m)).isSome = true) ∧
    (∀ j w, zlookup j (zonesOf st m) = some w →
      (zlookup j (zonesOf ((get_module_zones srv st m).1) m)).isSome = true) ∧
    (∀ j w, zlookup j (tilesOf st m) = some w →
      (zlookup j (tilesOf ((get_module_tiles srv st m).1) m)).isSome = true) := by
  by_cases hauth : st.authenticated = true
  · have hzn := mdZonePairs_rev_none srv st m i hz
    have htn := mdTilePairs_rev_none srv st m i ht
    have htn2 := gmtTilePairs_rev_none srv st m i ht
    refine ⟨?_, ?_, ?_, ?_, ?_, ?_, ?_, ?_, ?_, ?_⟩
    · rw [md_zonesOf_auth srv now st m hauth, zlookup_mergePairs, hzn, oOr_none_left]
    · rw [md_tilesOf_auth srv now st m hauth, zlookup_mergePairs, htn, oOr_none_left]
    · rw [gmz_zonesOf_auth srv st m hauth, zlookup_mergePairs, hzn, oOr_none_left]
    · rw [gmz_tilesOf_auth srv st m m hauth]
    · rw [gmt_zonesOf_auth srv st m m hauth]
    · rw [gmt_tilesOf_auth srv st m hauth, zlookup_mergePairs, htn2, oOr_none_left]
    · intro j w hw
      rw [md_zonesOf_auth srv now st m hauth]
      exact zlookup_isSome_mergePairs _ _ _ (by simp [hw])
    · intro j w hw
      rw [md_tilesOf_auth srv now st m hauth]
      exact zlookup_isSome_mergePairs _ _ _ (by simp [hw])
    · intro j w hw
      rw [gmz_zonesOf_auth srv st m hauth]
      exact zlookup_isSome_mergePairs _ _ _ (by simp [hw])
    · intro j w hw
      rw [gmt_tilesOf_auth srv st m hauth]
      exact zlookup_isSome_mergePairs _ _ _ (by simp [hw])
  · have hf : st.authenticated = false := by
      simpa using hauth
    rw [module_data_unauth srv now st m hf, get_module_zones_unauth srv st m hf,
      get_module_tiles_unauth srv st m hf]
    exact ⟨rfl, rfl, rfl, rfl, rfl, rfl,
      fun j w hw => by simp [hw], fun j w hw => by simp [hw],
      fun j w hw => by simp [hw], fun j w hw => by simp [hw]⟩

/-! ### Repeated refresh (C4) -/

theorem md_creds (srv : Server) (now : Nat) (st : TechState) (m : String) :
    credsEq ((module_data srv now st m).1) st := by
  by_cases h : st.authenticated = true
  · rw [md_eq srv now st m h]
    exact mdState_creds srv now st m
  · have hf : st.authenticated = false := by
      simpa using h
    rw [module_data_unauth srv now st m hf]
    exact credsEq_refl st

theorem md_userStr (srv : Server) (now : Nat) (st : TechState) (m : String) :
    userStr ((module_data srv now st m).1) = userStr st := by
  unfold userStr
  rw [(md_creds srv now st m).1]

theorem md_auth (srv : Server) (now : Nat) (st : TechState) (m : String) :
    ((module_data srv now st m).1).authenticated = st.authenticated :=
  (md_creds srv now st m).2.2.1

theorem moduleResp_congr (srv : Server) {st st' : TechState} (m : String)
    (h : userStr st' = userStr st) : moduleResp srv st' m = moduleResp srv st m := by
  unfold moduleResp
  rw [h]

theorem mdZonePairs_congr (srv : Server) {st st' : TechState} (m : String)
    (h : userStr st' = userStr st) : mdZonePairs srv st' m = mdZonePairs srv st m := by
  unfold mdZonePairs
  rw [moduleResp_congr srv m h]

theorem mdTilePairs_congr (srv : Server) {st st' : TechState} (m : String)
    (h : userStr st' = userStr st) : mdTilePairs srv st' m = mdTilePairs srv st m := by
  unfold mdTilePairs
  rw [moduleResp_congr srv m h]

/-- `n` consecutive `module_data` refreshes against the same server. -/
def mdIter (srv : Server) (now : Nat) (m : String) : Nat → TechState → TechState
  | 0, st => st
  | n + 1, st => mdIter srv now m n ((module_data srv now st m).1)

theorem mdIter_unauth (srv : Server) (now : Nat) (m : String) (n : Nat)
    (st : TechState) (h : st.authenticated = false) :
    mdIter srv now m n st = st := by
  induction n with
  | zero => rfl
  | succ k ih =>
    show mdIter srv now m k ((module_data srv now st m).1) = st
    rw [module_data_unauth srv now st m h]
    exact ih

theorem mdIter_lookup (srv : Server) (now : Nat) (m : String) :
    ∀ (n : Nat) (st : TechState), st.authenticated = true →
      (∀ i, zlookup i (zonesOf (mdIter srv now m (n + 1) st) m) =
        zlookup i (zonesOf ((module_data srv now st m).1) m)) ∧
      (∀ i, zlookup i (tilesOf (mdIter srv now m (n + 1) st) m) =
        zlookup i (tilesOf ((module_data srv now st m).1) m)) := by
  intro n
  induction n with
  | zero => exact fun st _ => ⟨fun i => rfl, fun i => rfl⟩
  | succ k ih =>
    intro st hauth
    have hauth' : ((module_data srv now st m).1).authenticated = true := by
      rw [md_auth srv now st m]
      exact hauth
    have hus := md_userStr srv now st m
    have hzc := mdZonePairs_congr srv m hus
    have htc := mdTilePairs_congr srv m hus
    obtain ⟨ihz, iht⟩ := ih ((module_data srv now st m).1) hauth'
    constructor
    · intro i
      show zlookup i (zonesOf (mdIter srv now m (k + 1) ((module_data srv now st m).1)) m) = _
      rw [ihz i]
      rw [md_zonesOf_auth srv now ((module_data srv now st m).1) m hauth',
        md_zonesOf_auth srv now st m hauth, hzc]
      rw [zlookup_mergePairs, zlookup_mergePairs]
      exact oOr_absorb _ _
    · intro i
      show zlookup i (tilesOf (mdIter srv now m (k + 1) ((module_data srv now st m).1)) m) = _
      rw [iht i]
      rw [md_tilesOf_auth srv now ((module_data srv now st m).1) m hauth',
        md_tilesOf_auth srv now st m hauth, htc]
      rw [zlookup_mergePairs, zlookup_mergePairs]
      exact oOr_absorb _ _

/-- C4: refresh is idempotent on cache content. -/
theorem C4_idempotent (srv : Server) (now : Nat) (m : String) (st : TechState)
    (n : Nat) (hn : 1 ≤ n) :
    (∀ i, zlookup i (zonesOf (mdIter srv now m n st) m) =
      zlookup i (zonesOf (mdIter srv now m 1 st) m)) ∧
    (∀ i, zlookup i (tilesOf (mdIter srv now m n st) m) =
      zlookup i (tilesOf (mdIter srv now m 1 st) m)) := by
  obtain ⟨k, rfl⟩ : ∃ k, n = k + 1 := ⟨n - 1, by omega⟩
  by_cases hauth : st.authenticated = true
  · obtain ⟨hz, ht⟩ := mdIter_lookup srv now m k st hauth
    exact ⟨fun i => hz i, fun i => ht i⟩
  · have hf : st.authenticated = false := by
      simpa using hauth
    rw [mdIter_unauth srv now m (k + 1) st hf, mdIter_unauth srv now m 1 st hf]
    exact ⟨fun i => rfl, fun i => rfl⟩

/-! ### Zone admission (C3) -/

theorem zonePairs_of_ids {L : List Json} (h : ∀ z ∈ L, (zoneIdOf z).isSome = true) :
    zonePairs L = (L.map (fun z => ((zoneIdOf z).getD Json.null, z)), none) := by
  induction L with
  | nil => rfl
  | cons z rest ih =>
    have hz := h z (List.mem_cons_self _ _)
    unfold zoneIdOf at hz
    cases hzf : z.find "zone" with
    | none =>
      rw [hzf] at hz
      simp at hz
    | some sub =>
      rw [hzf] at hz
      dsimp only [Option.bind] at hz
      cases hid : sub.find "id" with
      | none =>
        rw [hid] at hz
        simp at hz
      | some zid =>
        unfold zonePairs
        rw [hzf]
        dsimp only
        rw [hid]
        dsimp only
        rw [ih (fun w hw => h w (List.mem_cons_of_mem _ hw))]
        simp [zoneIdOf, hzf, hid]

/-! ### Concrete fixtures used by counterexamples and witnesses -/

/-- A fresh, unauthenticated client. -/
def stUnauth : TechState := ⟨none, none, false, none, []⟩

/-- An authenticated client with an empty cache. -/
def stAuth : TechState :=
  ⟨some "u1", some (Json.str "tok"), true, some "Bearer tok", []⟩

/-- A valid zone record with id 7 (as cached earlier). -/
def zone7 : Json :=
  Json.obj [("zone", Json.obj [("id", Json.int 7), ("visibility", Json.bool true)])]

/-- A visible tile record with id 8 (as cached earlier). -/
def tile8 : Json := Json.obj [("id", Json.int 8), ("visibility", Json.bool true)]

/-- An authenticated client whose cache for module `m1` holds zone 7 and
tile 8. -/
def stCached : TechState :=
  ⟨some "u1", some (Json.str "tok"), true, some "Bearer tok",
    [("m1", ⟨some 5, [(Json.int 7, zone7)], [(Json.int 8, tile8)]⟩)]⟩

/-- A valid zone record with id 1, carrying a mode id (for `set_const_temp`). -/
def zoneRec1 : Json :=
  Json.obj [("zone", Json.obj [("id", Json.int 1), ("visibility", Json.bool true),
    ("zoneState", Json.str "zoneOn")]),
    ("mode", Json.obj [("id", Json.int 9)])]

/-- A visible tile record with id 2. -/
def tileRec2 : Json := Json.obj [("id", Json.int 2), ("visibility", Json.bool true)]

/-- A module payload offering zone 1 and tile 2. -/
def payload1 : Json :=
  Json.obj [("zones", Json.obj [("elements", Json.arr [zoneRec1])]),
    ("tiles", Json.arr [tileRec2])]

/-- A server that always answers 200 with `payload1`. -/
def srv1 : Server := fun _ => .ok payload1

/-- A zone record that passes the validity filter but has no id. -/
def zoneNoId : Json :=
  Json.obj [("zone", Json.obj [("visibility", Json.bool true)])]

/-- A payload whose only zone record is `zoneNoId`. -/
def payloadNoId : Json :=
  Json.obj [("zones", Json.obj [("elements", Json.arr [zoneNoId])])]

/-- A server that always answers 200 with `payloadNoId`. -/
def srvNoId : Server := fun _ => .ok payloadNoId

/-- A server that always answers 200 with an empty JSON object. -/
def srvEmpty : Server := fun _ => .ok (Json.obj [])

/-- A server that rejects credentials via `authenticated: false` (HTTP 200). -/
def srvReject : Server := fun _ => .ok (Json.obj [("authenticated", Json.bool false)])

/-- A server that fails every request with a 401 status. -/
def srvErr : Server := fun _ => .error ⟨401, "unauthorized"⟩

/-- C1 witness: refreshing `stCached` with `payload1` (ids 1 and 2 only)
leaves cached zone 7 untouched. -/
theorem C1_monotonic_merge_witness :
    (∀ z ∈ respZoneRecords (moduleResp srv1 stCached "m1"),
      zoneIdOf z ≠ some (Json.int 7)) ∧
    (∀ t ∈ respTileRecords (moduleResp srv1 stCached "m1"),
      tileIdOf t ≠ some (Json.int 7)) ∧
    zlookup (Json.int 7) (zonesOf ((module_data srv1 0 stCached "m1").1) "m1") =
      zlookup (Json.int 7) (zonesOf stCached "m1") :=
  ⟨by decide, by decide,
    (C1_monotonic_merge srv1 0 stCached "m1" (Json.int 7) (by decide) (by decide)).1⟩

/-- C4 witness: two refreshes with `payload1` leave the same entry for id 1
as one refresh. -/
theorem C4_idempotent_witness :
    1 ≤ 2 ∧
    zlookup (Json.int 1) (zonesOf (mdIter srv1 0 "m1" 2 stCached) "m1") =
      zlookup (Json.int 1) (zonesOf (mdIter srv1 0 "m1" 1 stCached) "m1") :=
  ⟨by decide, (C4_idempotent srv1 0 "m1" stCached 2 (by decide)).1 (Json.int 1)⟩

/-- C3 (amended): when every filter-passing record carries a zone id, a
record is admitted to the module's zones map iff it passes the validity
filter; nothing else enters the cache, and no error is raised. -/
theorem C3_zone_filter (srv : Server) (st : TechState) (m : String) (p : Json)
    (hauth : st.authenticated = true)
    (hresp : moduleResp srv st m = .ok p)
    (hid : ∀ z ∈ jarr (zonesField p), zoneValid z = true → (zoneIdOf z).isSome = true) :
    (∃ zm, (get_module_zones srv st m).2.2 = Except.ok zm) ∧
    (∀ z ∈ jarr (zonesField p), zoneValid z = true →
      ∃ idv, zoneIdOf z = some idv ∧
        ∃ w, zlookup idv (zonesOf ((get_module_zones srv st m).1) m) = some w ∧
          w ∈ jarr (zonesField p) ∧ zoneValid w = true) ∧
    (∀ idv w, zlookup idv (zonesOf ((get_module_zones srv st m).1) m) = some w →
      zlookup idv (zonesOf st m) = some w ∨
        (w ∈ jarr (zonesField p) ∧ zoneValid w = true)) := by
  have hL : ∀ z ∈ filter_zones (jarr (zonesField p)), (zoneIdOf z).isSome = true := by
    intro z hz
    obtain ⟨hmem, hvalid⟩ := List.mem_filter.mp hz
    exact hid z hmem hvalid
  have hzml : zoneMergeList p =
      ((filter_zones (jarr (zonesField p))).map
        (fun z => ((zoneIdOf z).getD Json.null, z)), none) := by
    unfold zoneMergeList
    by_cases htr : (zonesField p).truthy
    · rw [if_pos htr]
      exact zonePairs_of_ids hL
    · rw [if_neg htr]
      have hjarr : jarr (zonesField p) = [] := by
        cases hj : jarr (zonesField p) with
        | nil => rfl
        | cons a t =>
          exact absurd (jarr_truthy (hj ▸ List.mem_cons_self a t)) htr
      rw [hjarr]
      rfl
  have hpairs : mdZonePairs srv st m =
      (filter_zones (jarr (zonesField p))).map
        (fun z => ((zoneIdOf z).getD Json.null, z)) := by
    unfold mdZonePairs
    rw [hresp]
    dsimp only
    rw [hzml]
  have hzafter : zonesOf ((get_module_zones srv st m).1) m =
      mergePairs (zonesOf st m) (mdZonePairs srv st m) :=
    gmz_zonesOf_auth srv st m hauth
  refine ⟨?_, ?_, ?_⟩
  · refine ⟨zonesOf (gmzState srv st m) m, ?_⟩
    rw [gmz_eq srv st m hauth]
    show gmzResult srv st m = _
    unfold gmzResult
    rw [hresp]
    dsimp only
    rw [hzml]
  · intro z hz hvalid
    have hzL : z ∈ filter_zones (jarr (zonesField p)) :=
      List.mem_filter.mpr ⟨hz, hvalid⟩
    obtain ⟨idv, hidv⟩ := Option.isSome_iff_exists.mp (hid z hz hvalid)
    refine ⟨idv, hidv, ?_⟩
    have hmemp : (idv, z) ∈ mdZonePairs srv st m := by
      rw [hpairs]
      exact List.mem_map.mpr ⟨z, hzL, by rw [hidv]; rfl⟩
    have hsome : (zlookup idv (mdZonePairs srv st m).reverse).isSome = true :=
      zlookup_isSome_of_mem_key (List.mem_reverse.mpr hmemp)
    obtain ⟨w, hw⟩ := Option.isSome_iff_exists.mp hsome
    have hwmem : (idv, w) ∈ mdZonePairs srv st m :=
      List.mem_reverse.mp (zlookup_mem hw)
    have hwL : w ∈ filter_zones (jarr (zonesField p)) := by
      rw [hpairs] at hwmem
      obtain ⟨z', hz', heq⟩ := List.mem_map.mp hwmem
      have : z' = w := congrArg Prod.snd heq
      exact this ▸ hz'
    obtain ⟨hwmem2, hwvalid⟩ := List.mem_filter.mp hwL
    refine ⟨w, ?_, hwmem2, hwvalid⟩
    rw [hzafter, zlookup_mergePairs, hw]
    rfl
  · intro idv w hw
    rw [hzafter, zlookup_mergePairs] at hw
    cases hr : zlookup idv (mdZonePairs srv st m).reverse with
    | none =>
      rw [hr] at hw
      exact Or.inl hw
    | some w' =>
      rw [hr] at hw
      have hww : w' = w := Option.some.inj hw
      subst hww
      have hwmem : (idv, w') ∈ mdZonePairs srv st m :=
        List.mem_reverse.mp (zlookup_mem hr)
      rw [hpairs] at hwmem
      obtain ⟨z', hz', heq⟩ := List.mem_map.mp hwmem
      have hzw : z' = w' := congrArg Prod.snd heq
      subst hzw
      obtain ⟨hmem, hvalid⟩ := List.mem_filter.mp hz'
      exact Or.inr ⟨hmem, hvalid⟩

/-- C3 counterexample: `zoneNoId` passes the validity filter, yet the refresh
raises `KeyError("id")` and caches nothing — so validity alone does not imply
admission. -/
theorem C3_counterexample :
    zoneValid zoneNoId = true ∧
    (get_module_zones srvNoId stAuth "m1").2.2 = .error (.keyError "id") ∧
    zonesOf ((get_module_zones srvNoId stAuth "m1").1) "m1" = [] := by
  decide

/-- C3 witness: with `payload1` every valid record has an id; zone 1 is
admitted. -/
theorem C3_zone_filter_witness :
    stCached.authenticated = true ∧
    moduleResp srv1 stCached "m1" = .ok payload1 ∧
    (∀ z ∈ jarr (zonesField payload1), zoneValid z = true →
      (zoneIdOf z).isSome = true) ∧
    (∃ zm, (get_module_zones srv1 stCached "m1").2.2 = Except.ok zm) :=
  ⟨rfl, rfl, by decide,
    (C3_zone_filter srv1 stCached "m1" payload1 rfl rfl (by decide)).1⟩

/-! ### Authentication pre-check (C2) and authenticate (C6) -/

/-- C2 counterexample: the pre-check failure on an unauthenticated `get` is
the generic `TechError(401, "Not authenticated")`, not the
`TechLoginError` subclass (the kind the spec calls AuthenticationError and
`coordinator.py` maps to re-authentication). -/
theorem C2_counterexample :
    (get srvEmpty stUnauth "i18n/en").2.2 =
      .error (.techError 401 "Not authenticated") ∧
    isLoginErr ((get srvEmpty stUnauth "i18n/en").2.2) = false := by
  decide

/-- C2 (amended): every guarded operation invoked while the session is
unauthenticated fails before any network request (the request log is empty)
with the generic `TechError` kind, status 401, message "Not authenticated",
leaving the client state unchanged. -/
theorem C2_auth_precheck (supported : List String) (srv : Server) (now : Nat)
    (st : TechState) (path lang m : String) (data zone_id : Json) (t : ℚ)
    (onFlag : Bool) (h : st.authenticated = false) :
    get srv st path = (st, [], .error (.techError 401 "Not authenticated")) ∧
    post srv st path data = (st, [], .error (.techError 401 "Not authenticated")) ∧
    list_modules srv st = (st, [], .error (.techError 401 "Not authenticated")) ∧
    get_module_data srv st m = (st, [], .error (.techError 401 "Not authenticated")) ∧
    get_translations supported srv st lang =
      (st, [], .error (.techError 401 "Not authenticated")) ∧
    get_module_zones srv st m = (st, [], .error (.techError 401 "Not authenticated")) ∧
    get_module_tiles srv st m = (st, [], .error (.techError 401 "Not authenticated")) ∧
    module_data srv now st m = (st, [], .error (.techError 401 "Not authenticated")) ∧
    set_const_temp srv st m zone_id t =
      (st, [], .error (.techError 401 "Not authenticated")) ∧
    set_zone srv st m zone_id onFlag =
      (st, [], .error (.techError 401 "Not authenticated")) :=
  ⟨get_unauth srv st path h, post_unauth srv st path data h,
    list_modules_unauth srv st h, get_module_data_unauth srv st m h,
    get_translations_unauth supported srv st lang h,
    get_module_zones_unauth srv st m h, get_module_tiles_unauth srv st m h,
    module_data_unauth srv now st m h, set_const_temp_unauth srv st m zone_id t h,
    set_zone_unauth srv st m zone_id onFlag h⟩

theorem C2_auth_precheck_witness :
    stUnauth.authenticated = false ∧
    get srvEmpty stUnauth "x" =
      (stUnauth, [], .error (.techError 401 "Not authenticated")) :=
  ⟨rfl, (C2_auth_precheck [] srvEmpty 0 stUnauth "x" "en" "m1" Json.null Json.null
    0 true rfl).1⟩

/-- The server rejects the posted credentials: either an error response, or a
200 response whose `authenticated` field is falsy. -/
def rejectsB (srv : Server) (u p : String) : Bool :=
  match srv (authReq u p) with
  | .error _ => true
  | .ok j => !(j.getD "authenticated" (Json.bool false)).truthy

/-- C6 counterexample: rejection via a 200 response with
`authenticated: false` makes `authenticate` return `False` — no
AuthenticationError (nor any exception) is raised. -/
theorem C6_counterexample :
    (authenticate srvReject stUnauth "alice" "pw").2.2 = .ok false ∧
    isLoginErr ((authenticate srvReject stUnauth "alice" "pw").2.2) = false ∧
    ((authenticate srvReject stUnauth "alice" "pw").1).authenticated = false := by
  decide

/-- C6 (amended): when the server rejects the credentials, an initially
unauthenticated client stays unauthenticated with its credentials unchanged;
the failure surfaces as `TechLoginError` when the server answered with an
error response, and as a plain `False` return when the server answered 200
with a falsy `authenticated` field. -/
theorem C6_authenticate_rejected (srv : Server) (st : TechState) (u p : String)
    (hrej : rejectsB srv u p = true) (hun : st.authenticated = false) :
    ((authenticate srv st u p).1).authenticated = false ∧
    ((authenticate srv st u p).1).user_id = st.user_id ∧
    ((authenticate srv st u p).1).token = st.token ∧
    (authenticate srv st u p).2.1 = [authReq u p] ∧
    ((authenticate srv st u p).2.2 =
        .error (.techLoginError 401 "Login failed: Authentication failed") ∨
      (authenticate srv st u p).2.2 = .ok false) ∧
    (∀ f, srv (authReq u p) = .error f →
      authenticate srv st u p = (st, [authReq u p],
        .error (.techLoginError 401 "Login failed: Authentication failed"))) ∧
    (∀ j, srv (authReq u p) = .ok j →
      authenticate srv st u p =
        ({ st with authenticated := false }, [authReq u p], .ok false)) := by
  unfold rejectsB at hrej
  rw [show authReq u p =
    (⟨"POST", "authentication", some (authBody u p)⟩ : Request) from rfl] at hrej
  simp only [authenticate, make_request]
  cases hsrv : srv (⟨"POST", "authentication", some (authBody u p)⟩ : Request) with
  | error f =>
    rw [hsrv] at hrej
    exact ⟨hun, rfl, rfl, rfl, Or.inl rfl,
      fun f' hf => rfl,
      fun j hj =>
        absurd (Eq.trans hsrv.symm hj) (by simp)⟩
  | ok j =>
    rw [hsrv] at hrej
    have htr : (j.getD "authenticated" (Json.bool false)).truthy = false := by
      simpa using hrej
    simp only [htr, Bool.false_eq_true, if_false]
    exact ⟨by trivial, by trivial, by trivial, by trivial, Or.inr (by trivial),
      fun f' hf => absurd (Eq.trans hsrv.symm hf) (by simp),
      fun j' hj => by trivial⟩

theorem C6_authenticate_rejected_witness :
    rejectsB srvReject "alice" "pw" = true ∧
    stUnauth.authenticated = false ∧
    ((authenticate srvReject stUnauth "alice" "pw").1).authenticated = false :=
  ⟨by decide, rfl,
    (C6_authenticate_rejected srvReject stUnauth "alice" "pw" (by decide) rfl).1⟩

/-! ### Credential frame (C7) -/

theorem get_state (srv : Server) (st : TechState) (path : String) :
    (get srv st path).1 = st := by
  unfold get guarded make_request
  by_cases h : st.authenticated = true
  · rw [if_pos h]
  · rw [if_neg h]

theorem post_state (srv : Server) (st : TechState) (path : String) (data : Json) :
    (post srv st path data).1 = st := by
  unfold post guarded make_request
  by_cases h : st.authenticated = true
  · rw [if_pos h]
  · rw [if_neg h]

theorem list_modules_state (srv : Server) (st : TechState) :
    (list_modules srv st).1 = st := by
  unfold list_modules guarded
  by_cases h : st.authenticated = true
  · rw [if_pos h]
    exact get_state srv st _
  · rw [if_neg h]

theorem get_module_data_state (srv : Server) (st : TechState) (m : String) :
    (get_module_data srv st m).1 = st := by
  unfold get_module_data guarded
  by_cases h : st.authenticated = true
  · rw [if_pos h]
    exact get_state srv st _
  · rw [if_neg h]

theorem get_translations_state (supported : List String) (srv : Server)
    (st : TechState) (lang : String) :
    (get_translations supported srv st lang).1 = st := by
  unfold get_translations guarded
  by_cases h : st.authenticated = true
  · rw [if_pos h]
    exact get_state srv st _
  · rw [if_neg h]

theorem gmz_creds_op (srv : Server) (st : TechState) (m : String) :
    credsEq ((get_module_zones srv st m).1) st := by
  by_cases h : st.authenticated = true
  · rw [gmz_eq srv st m h]
    exact gmzState_creds srv st m
  · have hf : st.authenticated = false := by
      simpa using h
    rw [get_module_zones_unauth srv st m hf]
    exact credsEq_refl st

theorem gmt_creds_op (srv : Server) (st : TechState) (m : String) :
    credsEq ((get_module_tiles srv st m).1) st := by
  by_cases h : st.authenticated = true
  · rw [gmt_eq srv st m h]
    exact gmtState_creds srv st m
  · have hf : st.authenticated = false := by
      simpa using h
    rw [get_module_tiles_unauth srv st m hf]
    exact credsEq_refl st

theorem get_zone_state (srv : Server) (st : TechState) (m : String) (zid : Json) :
    (get_zone srv st m zid).1 = (get_module_zones srv st m).1 := by
  unfold get_zone
  cases hg : get_module_zones srv st m with
  | mk st1 rest =>
    obtain ⟨reqs, r⟩ := rest
    cases r with
    | error e => rfl
    | ok zm =>
      dsimp only
      cases zlookup zid (zonesOf st1 m) <;> rfl

theorem get_tile_state (srv : Server) (st : TechState) (m : String) (tid : Json) :
    (get_tile srv st m tid).1 = (get_module_tiles srv st m).1 := by
  unfold get_tile
  cases hg : get_module_tiles srv st m with
  | mk st1 rest =>
    obtain ⟨reqs, r⟩ := rest
    cases r with
    | error e => rfl
    | ok tm =>
      dsimp only
      cases zlookup tid (tilesOf st1 m) <;> rfl

theorem set_const_temp_creds (srv : Server) (st : TechState) (m : String)
    (zid : Json) (t : ℚ) : credsEq ((set_const_temp srv st m zid t).1) st := by
  unfold set_const_temp guarded
  by_cases h : st.authenticated = true
  · rw [if_pos h]
    cases hg : get_module_zones srv st m with
    | mk st1 rest =>
      have hc : credsEq st1 st := by
        have hcr := gmz_creds_op srv st m
        rw [hg] at hcr
        exact hcr
      obtain ⟨reqs, r⟩ := rest
      cases r with
      | error e => exact hc
      | ok zm =>
        dsimp only
        cases zlookup zid (zonesOf st1 m) with
        | none => exact hc
        | some zone_data =>
          dsimp only
          cases zone_data.find "mode" with
          | none => exact hc
          | some mode =>
            dsimp only
            cases mode.find "id" with
            | none => exact hc
            | some mode_id =>
              dsimp only
              cases hp : post srv st1
                  ("users/" ++ userStr st1 ++ "/modules/" ++ m ++ "/zones")
                  (Json.obj [("mode", Json.obj
                    [("id", mode_id), ("parentId", zid),
                     ("mode", Json.str "constantTemp"),
                     ("constTempTime", Json.int 60),
                     ("setTemperature", Json.int (pyInt (t * 10))),
                     ("scheduleIndex", Json.int 0)])]) with
              | mk st2 rest2 =>
                have hps : st2 = st1 := by
                  have := post_state srv st1
                    ("users/" ++ userStr st1 ++ "/modules/" ++ m ++ "/zones")
                    (Json.obj [("mode", Json.obj
                      [("id", mode_id), ("parentId", zid),
                       ("mode", Json.str "constantTemp"),
                       ("constTempTime", Json.int 60),
                       ("setTemperature", Json.int (pyInt (t * 10))),
                       ("scheduleIndex", Json.int 0)])])
                  rw [hp] at this
                  exact this
                show credsEq st2 st
                rw [hps]
                exact hc
  · rw [if_neg h]
    exact credsEq_refl st

theorem set_zone_creds (srv : Server) (st : TechState) (m : String)
    (zid : Json) (onFlag : Bool) :
    credsEq ((set_zone srv st m zid onFlag).1) st := by
  unfold set_zone guarded
  by_cases h : st.authenticated = true
  · rw [if_pos h]
    have := post_state srv st
      ("users/" ++ userStr st ++ "/modules/" ++ m ++ "/zones")
      (Json.obj [("zone", Json.obj
        [("id", zid), ("zoneState", Json.str (if onFlag then "zoneOn" else "zoneOff"))])])
    rw [this]
    exact credsEq_refl st
  · rw [if_neg h]
    exact credsEq_refl st

theorem clear_module_cache_creds (st : TechState) (mopt : Option String) :
    credsEq (clear_module_cache st mopt) st := by
  unfold clear_module_cache
  cases mopt with
  | none => exact credsEq_refl st
  | some m =>
    dsimp only
    by_cases hm : m ≠ ""
    · rw [if_pos hm]
      by_cases hp : (mlookup m st.modules).isSome = true
      · rw [if_pos hp]
        exact ⟨rfl, rfl, rfl, rfl⟩
      · rw [if_neg hp]
        exact credsEq_refl st
    · rw [if_neg hm]
      exact ⟨rfl, rfl, rfl, rfl⟩

/-- C7: every client operation other than `authenticate` leaves the
credentials (`user_id`, `token`, the `authenticated` flag, and the
authorization header) unchanged — `authenticate` is the only mutator. -/
theorem C7_credentials_frame (supported : List String) (srv : Server) (now : Nat)
    (st : TechState) (path lang m : String) (data zid tid : Json) (t : ℚ)
    (onFlag : Bool) (mopt : Option String) :
    credsEq ((get srv st path).1) st ∧
    credsEq ((post srv st path data).1) st ∧
    credsEq ((list_modules srv st).1) st ∧
    credsEq ((get_module_data srv st m).1) st ∧
    credsEq ((get_translations supported srv st lang).1) st ∧
    credsEq ((get_module_zones srv st m).1) st ∧
    credsEq ((get_module_tiles srv st m).1) st ∧
    credsEq ((module_data srv now st m).1) st ∧
    credsEq ((get_zone srv st m zid).1) st ∧
    credsEq ((get_tile srv st m tid).1) st ∧
    credsEq ((set_const_temp srv st m zid t).1) st ∧
    credsEq ((set_zone srv st m zid onFlag).1) st ∧
    credsEq (clear_module_cache st mopt) st := by
  refine ⟨?_, ?_, ?_, ?_, ?_, gmz_creds_op srv st m, gmt_creds_op srv st m,
    md_creds srv now st m, ?_, ?_, set_const_temp_creds srv st m zid t,
    set_zone_creds srv st m zid onFlag, clear_module_cache_creds st mopt⟩
  · rw [get_state]
    exact credsEq_refl st
  · rw [post_state]
    exact credsEq_refl st
  · rw [list_modules_state]
    exact credsEq_refl st
  · rw [get_module_data_state]
    exact credsEq_refl st
  · rw [get_translations_state]
    exact credsEq_refl st
  · rw [get_zone_state]
    exact gmz_creds_op srv st m
  · rw [get_tile_state]
    exact gmt_creds_op srv st m

/-! ### Temperature command (C8), accessors (C9), timestamps (C10) -/

/-- Closed form of `post` (authenticated case). -/
theorem post_eq (srv : Server) (st : TechState) (path : String) (data : Json)
    (h : st.authenticated = true) :
    post srv st path data =
      (st, [⟨"POST", path, some data⟩],
        match srv ⟨"POST", path, some data⟩ with
        | .error f => .error (.techError f.status f.msg)
        | .ok j => .ok j) := by
  simp only [post, guarded, make_request, h, if_true, eq_self_iff_true, ite_true]
  cases srv ⟨"POST", path, some data⟩ with
  | error f => rfl
  | ok j => rfl

/-- C8: every POST `set_const_temp` issues carries
`mode.setTemperature = int(target_temp * 10)` — the target scaled by ten and
truncated toward zero (equal to the floor for non-negative targets). -/
theorem C8_set_temperature (srv : Server) (st : TechState) (m : String)
    (zid : Json) (t : ℚ) :
    (∀ req ∈ (set_const_temp srv st m zid t).2.1, req.method = "POST" →
      ((req.body.getD Json.null).find "mode").bind
        (fun mo => Json.find mo "setTemperature") =
        some (Json.int (pyInt (t * 10)))) ∧
    (0 ≤ t → pyInt (t * 10) = ⌊t * 10⌋) := by
  constructor
  · by_cases h : st.authenticated = true
    · unfold set_const_temp guarded
      rw [if_pos h, gmz_eq srv st m h]
      dsimp only
      have hget : ∀ req, req ∈ [moduleReq st m] → req.method = "POST" →
          ((req.body.getD Json.null).find "mode").bind
            (fun mo => Json.find mo "setTemperature") =
            some (Json.int (pyInt (t * 10))) := by
        intro req hreq hpost
        have heq : req = moduleReq st m := by
          simpa using hreq
        rw [heq] at hpost
        simp [moduleReq] at hpost
      cases gmzResult srv st m with
      | error e => exact hget
      | ok zm =>
        dsimp only
        cases zlookup zid (zonesOf (gmzState srv st m) m) with
        | none => exact hget
        | some zone_data =>
          dsimp only
          cases zone_data.find "mode" with
          | none => exact hget
          | some mode =>
            dsimp only
            cases mode.find "id" with
            | none => exact hget
            | some mode_id =>
              dsimp only
              have hauth' : (gmzState srv st m).authenticated = true := by
                rw [(gmzState_creds srv st m).2.2.1]
                exact h
              rw [post_eq srv (gmzState srv st m)
                  ("users/" ++ userStr (gmzState srv st m) ++ "/modules/" ++ m ++ "/zones")
                  (Json.obj [("mode", Json.obj
                    [("id", mode_id), ("parentId", zid),
                     ("mode", Json.str "constantTemp"),
                     ("constTempTime", Json.int 60),
                     ("setTemperature", Json.int (pyInt (t * 10))),
                     ("scheduleIndex", Json.int 0)])]) hauth']
              dsimp only
              intro req hreq hpost
              rcases List.mem_append.mp hreq with hmem | hmem
              · have heq : req = moduleReq st m := by
                  simpa using hmem
                rw [heq] at hpost
                simp [moduleReq] at hpost
              · have heq : req = ⟨"POST",
                    "users/" ++ userStr (gmzState srv st m) ++ "/modules/" ++ m ++ "/zones",
                    some (Json.obj [("mode", Json.obj
                      [("id", mode_id), ("parentId", zid),
                       ("mode", Json.str "constantTemp"),
                       ("constTempTime", Json.int 60),
                       ("setTemperature", Json.int (pyInt (t * 10))),
                       ("scheduleIndex", Json.int 0)])])⟩ := by
                  simpa using hmem
                rw [heq]
                rfl
    · have hf : st.authenticated = false := by
        simpa using h
      rw [set_const_temp_unauth srv st m zid t hf]
      intro req hreq
      simp at hreq
  · intro ht0
    have hq : (0 : ℚ) ≤ t * 10 := by positivity
    have hnum : 0 ≤ (t * 10).num := Rat.num_nonneg.mpr hq
    unfold pyInt
    rw [Int.tdiv_eq_ediv hnum (Int.natCast_nonneg _), Rat.floor_def]

/-- The body `set_const_temp` posts for zone 1 of `stCached` at 21.5°C. -/
def body215 : Json :=
  Json.obj [("mode", Json.obj
    [("id", Json.int 9), ("parentId", Json.int 1),
     ("mode", Json.str "constantTemp"), ("constTempTime", Json.int 60),
     ("setTemperature", Json.int (pyInt ((21.5 : ℚ) * 10))),
     ("scheduleIndex", Json.int 0)])]

/-- C8 witness: target 21.5°C posts a body whose `mode.setTemperature` is
`int(21.5 * 10) = 215`. -/
theorem C8_set_temperature_witness :
    ((⟨"POST", "users/" ++ userStr (gmzState srv1 stCached "m1") ++
        "/modules/" ++ "m1" ++ "/zones", some body215⟩ : Request)
      ∈ (set_const_temp srv1 stCached "m1" (Json.int 1) (21.5 : ℚ)).2.1) ∧
    (((some body215).getD Json.null).find "mode").bind
      (fun mo => Json.find mo "setTemperature") =
      some (Json.int (pyInt ((21.5 : ℚ) * 10))) ∧
    pyInt ((21.5 : ℚ) * 10) = 215 := by
  have hr : gmzResult srv1 stCached "m1" =
      .ok [(Json.int 7, zone7), (Json.int 1, zoneRec1)] := by
    decide
  have hlz : zlookup (Json.int 1) (zonesOf (gmzState srv1 stCached "m1") "m1") =
      some zoneRec1 := by
    decide
  have hauth' : (gmzState srv1 stCached "m1").authenticated = true := by
    decide
  have hmode : zoneRec1.find "mode" = some (Json.obj [("id", Json.int 9)]) := by
    decide
  have hsc : (set_const_temp srv1 stCached "m1" (Json.int 1) (21.5 : ℚ)).2.1 =
      [moduleReq stCached "m1",
       ⟨"POST", "users/" ++ userStr (gmzState srv1 stCached "m1") ++
         "/modules/" ++ "m1" ++ "/zones", some body215⟩] := by
    unfold set_const_temp guarded
    rw [if_pos (show stCached.authenticated = true from rfl)]
    rw [gmz_eq srv1 stCached "m1" rfl]
    dsimp only
    rw [hr]
    dsimp only
    rw [hlz]
    dsimp only
    rw [hmode]
    dsimp only
    rw [show (Json.obj [("id", Json.int 9)]).find "id" = some (Json.int 9) from rfl]
    dsimp only
    rw [post_eq srv1 (gmzState srv1 stCached "m1")
        ("users/" ++ userStr (gmzState srv1 stCached "m1") ++ "/modules/" ++ "m1" ++ "/zones")
        (Json.obj [("mode", Json.obj
          [("id", Json.int 9), ("parentId", Json.int 1),
           ("mode", Json.str "constantTemp"), ("constTempTime", Json.int 60),
           ("setTemperature", Json.int (pyInt ((21.5 : ℚ) * 10))),
           ("scheduleIndex", Json.int 0)])]) hauth']
    rfl
  have hmem : (⟨"POST", "users/" ++ userStr (gmzState srv1 stCached "m1") ++
      "/modules/" ++ "m1" ++ "/zones", some body215⟩ : Request)
      ∈ (set_const_temp srv1 stCached "m1" (Json.int 1) (21.5 : ℚ)).2.1 := by
    rw [hsc]
    exact List.mem_cons_of_mem _ (List.mem_cons_self _ _)
  refine ⟨hmem,
    (C8_set_temperature srv1 stCached "m1" (Json.int 1) (21.5 : ℚ)).1 _ hmem rfl, ?_⟩
  have h10 : (21.5 : ℚ) * 10 = 215 := by norm_num
  unfold pyInt
  rw [h10]
  norm_num

/-- C9: the convenience accessors first refresh through the get-variants and
then either return the cached entry or raise `KeyError` — a not-found signal
distinct from both `TechError` and `TechLoginError`. -/
theorem C9_accessors (srv : Server) (st : TechState) (m : String)
    (zid tid : Json) (zm tm : ZMap)
    (hz : (get_module_zones srv st m).2.2 = .ok zm)
    (ht : (get_module_tiles srv st m).2.2 = .ok tm) :
    (get_zone srv st m zid).1 = (get_module_zones srv st m).1 ∧
    (get_zone srv st m zid).2.1 = (get_module_zones srv st m).2.1 ∧
    (zlookup zid (zonesOf ((get_module_zones srv st m).1) m) = none →
      (get_zone srv st m zid).2.2 = .error (.keyError
        ("Zone " ++ pyStr zid ++ " not found in module " ++ m))) ∧
    (∀ z, zlookup zid (zonesOf ((get_module_zones srv st m).1) m) = some z →
      (get_zone srv st m zid).2.2 = .ok z) ∧
    (get_tile srv st m tid).1 = (get_module_tiles srv st m).1 ∧
    (get_tile srv st m tid).2.1 = (get_module_tiles srv st m).2.1 ∧
    (zlookup tid (tilesOf ((get_module_tiles srv st m).1) m) = none →
      (get_tile srv st m tid).2.2 = .error (.keyError
        ("Tile " ++ pyStr tid ++ " not found in module " ++ m))) ∧
    (∀ w, zlookup tid (tilesOf ((get_module_tiles srv st m).1) m) = some w →
      (get_tile srv st m tid).2.2 = .ok w) ∧
    (∀ s2 msg, PyErr.keyError ("Zone " ++ pyStr zid ++ " not found in module " ++ m)
      ≠ PyErr.techError s2 msg) ∧
    (∀ s2 msg, PyErr.keyError ("Zone " ++ pyStr zid ++ " not found in module " ++ m)
      ≠ PyErr.techLoginError s2 msg) ∧
    (∀ s2 msg, PyErr.keyError ("Tile " ++ pyStr tid ++ " not found in module " ++ m)
      ≠ PyErr.techError s2 msg) ∧
    (∀ s2 msg, PyErr.keyError ("Tile " ++ pyStr tid ++ " not found in module " ++ m)
      ≠ PyErr.techLoginError s2 msg) := by
  cases hg : get_module_zones srv st m with
  | mk st1 rest =>
    obtain ⟨reqs, r⟩ := rest
    rw [hg] at hz
    have hr : r = .ok zm := hz
    subst hr
    cases hgt : get_module_tiles srv st m with
    | mk st2 rest2 =>
      obtain ⟨reqs2, r2⟩ := rest2
      rw [hgt] at ht
      have hr2 : r2 = .ok tm := ht
      subst hr2
      unfold get_zone get_tile
      rw [hg, hgt]
      dsimp only
      refine ⟨?_, ?_, ?_, ?_, ?_, ?_, ?_, ?_,
        fun s2 msg => by simp, fun s2 msg => by simp,
        fun s2 msg => by simp, fun s2 msg => by simp⟩
      · cases zlookup zid (zonesOf st1 m) <;> rfl
      · cases zlookup zid (zonesOf st1 m) <;> rfl
      · intro hnone
        rw [hnone]
      · intro z hsome
        rw [hsome]
      · cases zlookup tid (tilesOf st2 m) <;> rfl
      · cases zlookup tid (tilesOf st2 m) <;> rfl
      · intro hnone
        rw [hnone]
      · intro w hsome
        rw [hsome]

/-- C9 witness: looking up an id absent after a successful refresh raises
the `KeyError` not-found signal. -/
theorem C9_accessors_witness :
    (get_module_zones srvEmpty stCached "m1").2.2 = .ok [(Json.int 7, zone7)] ∧
    (get_module_tiles srvEmpty stCached "m1").2.2 = .ok [(Json.int 8, tile8)] ∧
    (get_zone srvEmpty stCached "m1" (Json.int 99)).2.2 = .error (.keyError
      ("Zone " ++ pyStr (Json.int 99) ++ " not found in module " ++ "m1")) :=
  ⟨by decide, by decide,
    (C9_accessors srvEmpty stCached "m1" (Json.int 99) (Json.int 99)
      [(Json.int 7, zone7)] [(Json.int 8, tile8)] (by decide) (by decide)).2.2.1
      (by decide)⟩

/-- C10: `get_module_zones` / `get_module_tiles` never modify any module's
`last_update`, whatever the server answers (success, error response, or a
payload whose merge raises) and whatever the client state; only `module_data`
stamps it — with the refresh time — when it succeeds. -/
theorem C10_last_update (srv : Server) (now : Nat) (st : TechState)
    (m m' : String) :
    get_module_last_update ((get_module_zones srv st m).1) m' =
      get_module_last_update st m' ∧
    get_module_last_update ((get_module_tiles srv st m).1) m' =
      get_module_last_update st m' ∧
    (∀ rec, (module_data srv now st m).2.2 = .ok rec →
      get_module_last_update ((module_data srv now st m).1) m = some now) := by
  refine ⟨?_, ?_, ?_⟩
  · by_cases h : st.authenticated = true
    · rw [gmz_eq srv st m h]
      exact last_update_gmzState srv st m m'
    · have hf : st.authenticated = false := by
        simpa using h
      rw [get_module_zones_unauth srv st m hf]
  · by_cases h : st.authenticated = true
    · rw [gmt_eq srv st m h]
      exact last_update_gmtState srv st m m'
    · have hf : st.authenticated = false := by
        simpa using h
      rw [get_module_tiles_unauth srv st m hf]
  · intro rec hok
    have hauth : st.authenticated = true := by
      by_cases h : st.authenticated = true
      · exact h
      · have hf : st.authenticated = false := by
          simpa using h
        rw [module_data_unauth srv now st m hf] at hok
        exact absurd hok (by simp)
    rw [md_eq srv now st m hauth] at hok ⊢
    exact md_ok_stamp srv now st m rec hok

/-- C10 witness: an error-answering server leaves `last_update` of the cached
module untouched through `get_module_zones`; a successful `module_data`
stamps it. -/
theorem C10_last_update_witness :
    get_module_last_update ((get_module_zones srvErr stCached "m1").1) "m1" =
      get_module_last_update stCached "m1" ∧
    (module_data srvEmpty 7 stCached "m1").2.2 =
      .ok ⟨some 7, [(Json.int 7, zone7)], [(Json.int 8, tile8)]⟩ ∧
    get_module_last_update ((module_data srvEmpty 7 stCached "m1").1) "m1" =
      some 7 :=
  ⟨(C10_last_update srvErr 0 stCached "m1" "m1").1,
    by decide,
    (C10_last_update srvEmpty 7 stCached "m1" "m1").2.2
      ⟨some 7, [(Json.int 7, zone7)], [(Json.int 8, tile8)]⟩ (by decide)⟩

/-! ### Single-flight refresh (C5) -/

theorem cstep_inv {s t : CSys} (hinv : CInv s) (hstep : CStep s t) : CInv t := by
  cases hstep with
  | precheckFail i hp ha =>
    intro j hj
    by_cases hji : j = i
    · subst hji
      simp only [holdsLock, updPhase, if_pos rfl] at hj
      rcases hj with hcase | hcase <;> simp at hcase
    · have hj' : holdsLock s j := by
        simpa [holdsLock, updPhase, hji] using hj
      exact hinv j hj'
  | precheckOk i hp ha =>
    intro j hj
    by_cases hji : j = i
    · subst hji
      simp only [holdsLock, updPhase, if_pos rfl] at hj
      rcases hj with hcase | hcase <;> simp at hcase
    · have hj' : holdsLock s j := by
        simpa [holdsLock, updPhase, hji] using hj
      exact hinv j hj'
  | acquire i hw ho =>
    intro j hj
    by_cases hji : j = i
    · subst hji
      rfl
    · have hj' : holdsLock s j := by
        simpa [holdsLock, updPhase, hji] using hj
      have hcontra := hinv j hj'
      rw [ho] at hcontra
      exact absurd hcontra (by simp)
  | fetchDone i hf =>
    intro j hj
    by_cases hji : j = i
    · subst hji
      exact hinv j (Or.inl hf)
    · have hj' : holdsLock s j := by
        simpa [holdsLock, updPhase, hji] using hj
      exact hinv j hj'
  | release i hm =>
    intro j hj
    by_cases hji : j = i
    · subst hji
      simp only [holdsLock, updPhase, if_pos rfl] at hj
      rcases hj with hcase | hcase <;> simp at hcase
    · have hj' : holdsLock s j := by
        simpa [holdsLock, updPhase, hji] using hj
      have h1 := hinv j hj'
      have h2 := hinv i (Or.inr hm)
      rw [h1] at h2
      exact absurd (Option.some.inj h2) hji

theorem creach_inv (auth : Bool) (mid : Fin 2 → String) (s : CSys)
    (h : CReach auth mid s) : CInv s := by
  induction h with
  | init =>
    intro j hj
    rcases hj with hcase | hcase <;> simp [CInit] at hcase
  | step hr hstep ih => exact cstep_inv ih hstep

/-- C5: in every state reachable by interleaving two `module_data` calls on
one client, the two module-payload fetches are never in flight
simultaneously — the `update_lock` serializes them. -/
theorem C5_single_flight (auth : Bool) (mid : Fin 2 → String) (s : CSys)
    (h : CReach auth mid s) :
    ¬(s.phase 0 = .fetching ∧ s.phase 1 = .fetching) := by
  rintro ⟨h0, h1⟩
  have hinv := creach_inv auth mid s h
  have e0 := hinv 0 (Or.inl h0)
  have e1 := hinv 1 (Or.inl h1)
  rw [e0] at e1
  have h01 : (0 : Fin 2) = 1 := Option.some.inj e1
  exact absurd h01 (by decide)

theorem C5_single_flight_witness :
    CReach true (fun _ => "m1") (CInit true (fun _ => "m1")) ∧
    ¬((CInit true (fun _ => "m1")).phase 0 = .fetching ∧
      (CInit true (fun _ => "m1")).phase 1 = .fetching) :=
  ⟨CReach.init, C5_single_flight true (fun _ => "m1") _ CReach.init⟩

end TechVerify
